import Mathlib

/-!
# A shallow embedding of the kappanhang CI-V controller

This file models the CI-V (Icom serial control protocol) controller of the
kappanhang client: the numeric codecs (frequency BCD, level BCD, SWR),
the command-slot / pending-set bookkeeping (`initCmd`, `sendCmd`,
`removePendingCmd`), the public get/set operations, and the inbound packet
decoder (`decode` and its per-command branches).

Modelling conventions:

* Go `byte` values are `Nat`s; where Go byte arithmetic can overflow the
  embedding takes `% 256` explicitly (`BCDToDec`), and Go `uint32`
  arithmetic takes `% 2^32` (`encodeForSend`).
* Go slices of bytes are `List Nat`.
* A Go runtime panic (index out of range) is modelled by returning `none`:
  the decoders have type `... → Option (CivState × Bool)`.
* The Go `getDigit` computes `v / 10^decade % 10` by repeated `float64`
  division.  For every `v ≤ 9 999 999 999` and `decade ≤ 9` this float
  computation is exact (all intermediate integers are below `2^53`, an
  exact division by 10 of a representable integer is exact, and the
  accumulated relative rounding error, at most `9·2^-53`, is far smaller
  than the distance `10^-decade` from any reachable non-integer value to
  the next integer), so the embedding uses `Nat` division directly.
  Similarly `math.Pow(10, pos)` is exact for `pos ≤ 9`.
* `BCDToSWR` returns `float64` in Go; it is embedded over `ℚ`.  The exact
  rational value differs from the float by less than `2^-50`, which is
  irrelevant at the granularity of the claims (1.5 vs 1.8 etc.).
* The CI-V command map `CIV` is keyed by Go strings; the embedding uses the
  finite inductive `CIVKey` with one constructor per key that appears in
  the source, plus `setSNR`: the source looks up the key "setSNR" (a typo
  in `setNR`), which is absent from the map, so the Go zero value — an
  empty `cmdSeq` — is returned.
* `civCmd.name` is only used for log output and is not read by any
  modelled code path; it is omitted from the state.  `sentAt` timestamps
  use an abstract `Nat` clock `now`.
* `statusLog.report*` calls only render state; they are omitted, except
  where the *call site* indexes the global tables `civOperatingModes` /
  `civFilters` with a state index that can be out of range: those reads
  are modelled as bounds checks that panic (`none`) when violated.
* `debugPackets` defaults to false (args.go), so the `debugPacket` branch
  of `decode` is dead and not modelled.
-/

/-! ## Numeric codecs (part_000 lines 1043-1139) -/

/-- Default CI-V address of the radio (args.go, `--civ-address`, default 0xa4). -/
def civAddress : Nat := 0xa4

/-- Default CI-V address of the controller (args.go, `--controller-address`, default 0xe0). -/
def controllerAddress : Nat := 0xe0

/-- Constant `ON` from the source. -/
def ON : Nat := 1

/-- Constant `OFF` from the source. -/
def OFF : Nat := 0

/-- One iteration of the double-dabble loop body of `encodeForSend`:
add 3 to the ONEs / TENs BCD places when they are ≥ 5, then shift left
one bit (uint32 arithmetic). -/
def ddStep (v : Nat) : Nat :=
  let v := if v &&& 0x00f00 > 0x00400 then v + 0x00300 else v
  let v := if v &&& 0x0f000 > 0x04000 then v + 0x03000 else v
  (v <<< 1) % 4294967296

/-- `encodeForSend` (part_000 lines 1044-1067): encode a decimal level to
two BCD-ish bytes `[hundreds, tens*10+ones]` with a double-dabble: the
initial `<<< 3` plus the five loop shifts (`shifts = 3..7`, unrolled here)
total eight shifts.  The Go `int` argument is cast to `uint32`. -/
def encodeForSend (decimal : Int) : List Nat :=
  let v := (((decimal % 4294967296).toNat) <<< 3) % 4294967296
  let v := ddStep (ddStep (ddStep (ddStep (ddStep v))))
  let hundreds := (v &&& 0xf0000) >>> 16
  let tens := (v &&& 0x0f000) >>> 12
  let ones := (v &&& 0x00f00) >>> 8
  let lo := ((tens <<< 3) + (tens <<< 1)) + ones
  [hundreds % 256, lo % 256]

/-- `BCDToDec` (part_000 lines 1069-1071): `int(bcd[0]*100 + bcd[1])`.
The multiplication and addition are Go `byte` (mod 256) arithmetic.
Indexing `bcd[1]` of a shorter slice panics, hence the `Option`. -/
def BCDToDec : List Nat → Option Nat
  | b0 :: b1 :: _ => some ((b0 % 256 * 100 + b1 % 256) % 256)
  | _ => none

/-- `BCDToSWR` (part_000 lines 1096-1105): `1 + (dec/120)*2`, embedded
over `ℚ` (the Go float64 result is within `2^-50` of this rational). -/
def BCDToSWR (bcd : List Nat) : Option ℚ :=
  match BCDToDec bcd with
  | none => none
  | some v => some (1 + ((v : ℚ) / 120) * 2)

/-- `getDigit` (part_000 lines 1119-1126): decimal digit of `v` at place
`decade`.  The source divides a `float64` by 10 `decade` times and
truncates; as explained in the header this is exactly `v / 10^decade % 10`
for all values the callers supply (`v ≤ 9 999 999 999`). -/
def getDigit (v : Nat) (decade : Nat) : Nat :=
  v / 10 ^ decade % 10

/-- `encodeFreqData` (part_000 lines 1230-1249): 5-byte little-endian BCD,
`b[i]` packing decimal digits `2i+1` (high nibble) and `2i` (low nibble). -/
def encodeFreqData (f : Nat) : List Nat :=
  [getDigit f 1 <<< 4 ||| getDigit f 0,
   getDigit f 3 <<< 4 ||| getDigit f 2,
   getDigit f 5 <<< 4 ||| getDigit f 4,
   getDigit f 7 <<< 4 ||| getDigit f 6,
   getDigit f 9 <<< 4 ||| getDigit f 8]

/-- Accumulator loop of `decodeFreqData`: each byte contributes its low
nibble at `10^pos` and high nibble at `10^(pos+1)`. -/
def decodeFreqDataAux : List Nat → Nat → Nat
  | [], _ => 0
  | v :: rest, pos =>
      ((v % 256) &&& 0x0f) * 10 ^ pos + ((v % 256) >>> 4) * 10 ^ (pos + 1)
        + decodeFreqDataAux rest (pos + 2)

/-- `decodeFreqData` (part_000 lines 1128-1139). -/
def decodeFreqData (d : List Nat) : Nat :=
  decodeFreqDataAux d 0

/-! ## Command slots and the CI-V command map (part_000 lines 109-314) -/

/-- One constructor per `civCmd` field of `civControlStruct.state`
(part_000 lines 127-169).  A Go pointer `*civCmd` into the state struct is
exactly one of these slots. -/
inductive CmdSlot
  | getFreq | getPwr | getS | getOVF | getSWR | getTransmitStatus
  | getPreamp | getAGC | getTuneStatus | getVd | getTuningStep
  | getRFGain | getSQL | getNR | getNREnabled | getSplit
  | getMainVFOFreq | getSubVFOFreq | getMainVFOMode | getSubVFOMode
  | setPwr | setRFGain | setSQL | setNR | setMainVFOFreq | setSubVFOFreq
  | setMode | setSubVFOMode | setPTT | setTune | setDataMode
  | setPreamp | setAGC | setNREnabled | setTuningStep | setVFO | setSplit
  deriving DecidableEq, Fintype, Repr

/-- Keys of the `CIV` command map that the source looks up
(part_000 lines 213-314).  `setSNR` models the key `"setSNR"` used by
`setNR` (line 1204), which is missing from the map: the lookup yields the
Go zero value, i.e. an empty `cmdSeq`. -/
inductive CIVKey
  | getFreq | getMode | setMode | setVFO | getSplit | setSplit
  | getTuningStep | setTuningStep | getRFGain | setRFGain
  | getSQL | setSQL | getNR | setNR | getPwr | setPwr
  | getS | getSWR | getVd | getPreamp | setPreamp | getAGC | setAGC
  | getNREnabled | setNREnabled | getDataMode | setDataMode | getOVF
  | getTransmitStatus | setPTT | setTune | getTuneStatus
  | getMainVFOFreq | setMainVFOFreq | getSubVFOFreq | setSubVFOFreq
  | getMainVFOMode | setMainVFOMode | getSubVFOMode | setSubVFOMode
  | setSNR
  deriving DecidableEq, Repr

/-- `CIV[key].cmdSeq` (part_000 lines 213-314); `setSNR` is the missing
key whose lookup returns the zero value. -/
def CIV : CIVKey → List Nat
  | .getFreq => [0x03]
  | .getMode => [0x04]
  | .setMode => [0x06]
  | .setVFO => [0x07]
  | .getSplit => [0x0f]
  | .setSplit => [0x0f]
  | .getTuningStep => [0x10]
  | .setTuningStep => [0x10]
  | .getRFGain => [0x14, 0x02]
  | .setRFGain => [0x14, 0x02]
  | .getSQL => [0x14, 0x03]
  | .setSQL => [0x14, 0x03]
  | .getNR => [0x14, 0x06]
  | .setNR => [0x14, 0x06]
  | .getPwr => [0x14, 0x0a]
  | .setPwr => [0x14, 0x0a]
  | .getS => [0x15, 0x02]
  | .getSWR => [0x15, 0x12]
  | .getVd => [0x15, 0x15]
  | .getPreamp => [0x16, 0x02]
  | .setPreamp => [0x16, 0x02]
  | .getAGC => [0x16, 0x12]
  | .setAGC => [0x16, 0x12]
  | .getNREnabled => [0x16, 0x40]
  | .setNREnabled => [0x16, 0x40]
  | .getDataMode => [0x1a, 0x06]
  | .setDataMode => [0x1a, 0x06]
  | .getOVF => [0x1a, 0x09]
  | .getTransmitStatus => [0x1c, 0x00]
  | .setPTT => [0x1c, 0x00]
  | .setTune => [0x1c, 0x01]
  | .getTuneStatus => [0x1c, 0x01]
  | .getMainVFOFreq => [0x25, 0x00]
  | .setMainVFOFreq => [0x25, 0x00]
  | .getSubVFOFreq => [0x25, 0x01]
  | .setSubVFOFreq => [0x25, 0x01]
  | .getMainVFOMode => [0x26, 0x00]
  | .setMainVFOMode => [0x26, 0x00]
  | .getSubVFOMode => [0x26, 0x01]
  | .setSubVFOMode => [0x26, 0x01]
  | .setSNR => []

/-- `prepPacket` (part_000 lines 1032-1041). -/
def prepPacket (command : CIVKey) (data : List Nat) : List Nat :=
  [0xfe, 0xfe] ++ [civAddress, controllerAddress] ++ CIV command ++ data ++ [0xfd]

/-- `noData` (part_000 line 316). -/
def noData : List Nat := []

/-! ## Static tables (part_000 lines 26-98) -/

/-- The `code` column of `civOperatingModes` (lines 26-37); the `name`
column is display-only. -/
def civOperatingModeCodes : List Nat :=
  [0x00, 0x01, 0x02, 0x03, 0x04, 0x05, 0x06, 0x07, 0x08, 0x17]

/-- The `code` column of `civFilters` (lines 44-48). -/
def civFilterCodes : List Nat := [0x01, 0x02, 0x03]

/-- `civBands` (lines 65-98): `(freqFrom, freqTo)` pairs.  The "GENE"
general entry is commented out in the source, so the table has exactly the
12 real bands. -/
def civBands : List (Nat × Nat) :=
  [(1800000, 2000000), (3500000, 4000000), (7000000, 7300000),
   (10100000, 10150000), (14000000, 14350000), (18068000, 18168000),
   (21000000, 21450000), (24890000, 24990000), (28000000, 29700000),
   (50000000, 54000000), (144000000, 148000000), (420000000, 450000000)]

/-- `splitModeOff` (iota 0). -/
def splitModeOff : Nat := 0

/-- `splitModeOn` (iota 1). -/
def splitModeOn : Nat := 1

/-- `splitModeDUPMinus` (iota 2). -/
def splitModeDUPMinus : Nat := 2

/-- `splitModeDUPPlus` (iota 3). -/
def splitModeDUPPlus : Nat := 3

/-! ## The controller state (part_000 lines 116-197) -/

/-- The state of `civControlStruct`: per-slot command bookkeeping plus the
mirrored radio state.  `connected` models `s.st != nil`; `now` is the
abstract clock backing `time.Now()`; `pttTimerArmed` / `tuneTimerArmed`
model a non-nil timer that has neither fired nor been stopped;
`bandFreqs` is the mutable `freq` column of the global `civBands` table;
`transmitted` collects the byte slices handed to `s.st.send`. -/
structure CivState where
  connected : Bool
  now : Nat
  pendingCmds : List CmdSlot
  pending : CmdSlot → Bool
  sentAt : CmdSlot → Nat
  cmdData : CmdSlot → List Nat
  lastSReceivedAt : Nat
  lastOVFReceivedAt : Nat
  lastSWRReceivedAt : Nat
  lastVFOFreqReceivedAt : Nat
  pttTimerArmed : Bool
  tuneTimerArmed : Bool
  freq : Nat
  subFreq : Nat
  ptt : Bool
  tune : Bool
  pwrLevel : Int
  rfGainLevel : Int
  sqlLevel : Int
  nrLevel : Int
  nrEnabled : Bool
  operatingModeIdx : Int
  dataMode : Bool
  filterIdx : Int
  subOperatingModeIdx : Int
  subDataMode : Bool
  subFilterIdx : Int
  bandIdx : Nat
  preamp : Int
  agc : Int
  tsValue : Nat
  ts : Nat
  vfoBActive : Bool
  splitMode : Nat
  bandFreqs : List Nat
  transmitted : List (List Nat)

/-- First index of the list satisfying `p`: the search loop shared by
`getPendingCmdIndex` (pointer scan, part_000 lines 986-993), the band scan
(lines 398-404) and the mode/filter code scans. `none` models Go's `-1` /
"not found". -/
def firstIdxWhere (p : α → Bool) : List α → Option Nat
  | [] => none
  | a :: t => if p a then some 0 else (firstIdxWhere p t).map (· + 1)

/-- The Go pending-list removal idiom (part_000 lines 1001-1003): the slot
at `i` is overwritten with the last element and the last element is
dropped. -/
def swapRemoveAt (l : List α) (i : Nat) : List α :=
  match l.getLast? with
  | none => l
  | some last => (l.set i last).dropLast

/-- `initCmd` (part_000 lines 980-984): reset the slot (`*cmd = civCmd{}`,
clearing the pending flag and timestamp) and store the request bytes.
The informational `name` field is not modelled. -/
def CivState.initCmd (s : CivState) (x : CmdSlot) (data : List Nat) : CivState :=
  { s with pending := fun y => if y = x then false else s.pending y,
           sentAt := fun y => if y = x then 0 else s.sentAt y,
           cmdData := fun y => if y = x then data else s.cmdData y }

/-- `getPendingCmdIndex` (part_000 lines 986-993); Go's `-1` is `none`. -/
def CivState.getPendingCmdIndex (s : CivState) (x : CmdSlot) : Option Nat :=
  firstIdxWhere (fun y => decide (y = x)) s.pendingCmds

/-- `removePendingCmd` (part_000 lines 995-1004): clear the pending flag,
then (if the slot is in the pending list) swap-remove it. -/
def CivState.removePendingCmd (s : CivState) (x : CmdSlot) : CivState :=
  let s1 := { s with pending := fun y => if y = x then false else s.pending y }
  match s1.getPendingCmdIndex x with
  | none => s1
  | some i => { s1 with pendingCmds := swapRemoveAt s1.pendingCmds i }

/-- `sendCmd` (part_000 lines 1006-1030): no-op when the serial stream is
absent; otherwise mark pending, record the send time, append the slot to
the pending list if not already there (the non-blocking notification
channel has no state effect), and hand the bytes to the stream (modelled
by appending to `transmitted`; `st.send` errors are not modelled). -/
def CivState.sendCmd (s0 : CivState) (x : CmdSlot) : CivState :=
  if s0.connected = false then s0
  else
    let s1 := { s0 with pending := fun y => if y = x then true else s0.pending y,
                        sentAt := fun y => if y = x then s0.now else s0.sentAt y }
    let s2 := match s1.getPendingCmdIndex x with
              | none => { s1 with pendingCmds := s1.pendingCmds ++ [x] }
              | some _ => s1
    { s2 with transmitted := s2.transmitted ++ [s2.cmdData x] }

/-! ## Public get/set operations (part_000 lines 1141-1597)

Each operation is `initCmd` on its slot followed by `sendCmd`, exactly as
in the source; `sendCmd` errors (which the callers mostly ignore or
short-circuit on) cannot occur in the model, so error short-circuits
reduce to sequencing. -/

/-- `getFreq` (lines 1502-1505). -/
def CivState.getFreq (s : CivState) : CivState :=
  (s.initCmd .getFreq (prepPacket .getFreq noData)).sendCmd .getFreq

/-- `getPwr` (lines 1507-1510). -/
def CivState.getPwr (s : CivState) : CivState :=
  (s.initCmd .getPwr (prepPacket .getPwr noData)).sendCmd .getPwr

/-- `getTransmitStatus` (lines 1512-1519): requests the transmit status
and then the tune status. -/
def CivState.getTransmitStatus (s : CivState) : CivState :=
  let s := (s.initCmd .getTransmitStatus (prepPacket .getTransmitStatus noData)).sendCmd .getTransmitStatus
  (s.initCmd .getTuneStatus (prepPacket .getTuneStatus noData)).sendCmd .getTuneStatus

/-- `getPreamp` (lines 1521-1524). -/
def CivState.getPreamp (s : CivState) : CivState :=
  (s.initCmd .getPreamp (prepPacket .getPreamp noData)).sendCmd .getPreamp

/-- `getAGC` (lines 1526-1529). -/
def CivState.getAGC (s : CivState) : CivState :=
  (s.initCmd .getAGC (prepPacket .getAGC noData)).sendCmd .getAGC

/-- `getVd` (lines 1531-1534). -/
def CivState.getVd (s : CivState) : CivState :=
  (s.initCmd .getVd (prepPacket .getVd noData)).sendCmd .getVd

/-- `getS` (lines 1536-1539). -/
def CivState.getS (s : CivState) : CivState :=
  (s.initCmd .getS (prepPacket .getS noData)).sendCmd .getS

/-- `getOVF` (lines 1541-1544). -/
def CivState.getOVF (s : CivState) : CivState :=
  (s.initCmd .getOVF (prepPacket .getOVF noData)).sendCmd .getOVF

/-- `getSWR` (lines 1546-1549). -/
def CivState.getSWR (s : CivState) : CivState :=
  (s.initCmd .getSWR (prepPacket .getSWR noData)).sendCmd .getSWR

/-- `getTuningStep` (lines 1551-1554). -/
def CivState.getTuningStep (s : CivState) : CivState :=
  (s.initCmd .getTuningStep (prepPacket .getTuningStep noData)).sendCmd .getTuningStep

/-- `getRFGain` (lines 1556-1559). -/
def CivState.getRFGain (s : CivState) : CivState :=
  (s.initCmd .getRFGain (prepPacket .getRFGain noData)).sendCmd .getRFGain

/-- `getSQL` (lines 1561-1564). -/
def CivState.getSQL (s : CivState) : CivState :=
  (s.initCmd .getSQL (prepPacket .getSQL noData)).sendCmd .getSQL

/-- `getNR` (lines 1566-1569). -/
def CivState.getNR (s : CivState) : CivState :=
  (s.initCmd .getNR (prepPacket .getNR noData)).sendCmd .getNR

/-- `getNREnabled` (lines 1571-1574). -/
def CivState.getNREnabled (s : CivState) : CivState :=
  (s.initCmd .getNREnabled (prepPacket .getNREnabled noData)).sendCmd .getNREnabled

/-- `getSplit` (lines 1576-1579). -/
def CivState.getSplit (s : CivState) : CivState :=
  (s.initCmd .getSplit (prepPacket .getSplit noData)).sendCmd .getSplit

/-- `getBothVFOFreq` (lines 1581-1588). -/
def CivState.getBothVFOFreq (s : CivState) : CivState :=
  let s := (s.initCmd .getMainVFOFreq (prepPacket .getMainVFOFreq noData)).sendCmd .getMainVFOFreq
  (s.initCmd .getSubVFOFreq (prepPacket .getSubVFOFreq noData)).sendCmd .getSubVFOFreq

/-- `getBothVFOMode` (lines 1590-1597). -/
def CivState.getBothVFOMode (s : CivState) : CivState :=
  let s := (s.initCmd .getMainVFOMode (prepPacket .getMainVFOMode noData)).sendCmd .getMainVFOMode
  (s.initCmd .getSubVFOMode (prepPacket .getSubVFOMode noData)).sendCmd .getSubVFOMode

/-- `setPwr` (lines 1141-1144). -/
def CivState.setPwr (s : CivState) (level : Int) : CivState :=
  (s.initCmd .setPwr (prepPacket .setPwr (encodeForSend level))).sendCmd .setPwr

/-- `setRFGain` (lines 1160-1163). -/
def CivState.setRFGain (s : CivState) (level : Int) : CivState :=
  (s.initCmd .setRFGain (prepPacket .setRFGain (encodeForSend level))).sendCmd .setRFGain

/-- `setSQL` (lines 1179-1182). -/
def CivState.setSQL (s : CivState) (level : Int) : CivState :=
  (s.initCmd .setSQL (prepPacket .setSQL (encodeForSend level))).sendCmd .setSQL

/-- `toggleNR` (lines 1415-1422). -/
def CivState.toggleNR (s : CivState) : CivState :=
  let b : Nat := if !s.nrEnabled then ON else 0
  (s.initCmd .setNREnabled (prepPacket .setNREnabled [b])).sendCmd .setNREnabled

/-- `setNR` (lines 1198-1206): enables NR first when it is off; note the
`"setSNR"` key typo, which makes `prepPacket` emit a packet without the
`0x14 0x06` command bytes. -/
def CivState.setNR (s : CivState) (level : Int) : CivState :=
  let s := if !s.nrEnabled then s.toggleNR else s
  (s.initCmd .setNR (prepPacket .setSNR (encodeForSend level))).sendCmd .setNR

/-- `setMainVFOFreq` (lines 1251-1255). -/
def CivState.setMainVFOFreq (s : CivState) (f : Nat) : CivState :=
  (s.initCmd .setMainVFOFreq (prepPacket .setMainVFOFreq (encodeFreqData f))).sendCmd .setMainVFOFreq

/-- `setSubVFOFreq` (lines 1257-1261). -/
def CivState.setSubVFOFreq (s : CivState) (f : Nat) : CivState :=
  (s.initCmd .setSubVFOFreq (prepPacket .setSubVFOFreq (encodeFreqData f))).sendCmd .setSubVFOFreq

/-- `setOperatingModeAndFilter` (lines 1299-1305). -/
def CivState.setOperatingModeAndFilter (s : CivState) (modeCode filterCode : Nat) : CivState :=
  let s := (s.initCmd .setMode (prepPacket .setMode [modeCode, filterCode])).sendCmd .setMode
  s.getBothVFOMode

/-- `setSubVFOMode` (lines 1307-1310). -/
def CivState.setSubVFOMode (s : CivState) (modeCode dataMode filterCode : Nat) : CivState :=
  (s.initCmd .setSubVFOMode (prepPacket .setSubVFOMode [modeCode, dataMode, filterCode])).sendCmd .setSubVFOMode

/-- `setPTT` (lines 1313-1323): on enable, arm the 10-minute PTT timeout
timer (`time.AfterFunc(pttTimeout, …)`) before sending `ON`; on disable
send `OFF` without touching the timer. -/
def CivState.setPTT (s : CivState) (enable : Bool) : CivState :=
  let b : Nat := if enable then ON else 0
  let s := if enable then { s with pttTimerArmed := true } else s
  (s.initCmd .setPTT (prepPacket .setPTT [b])).sendCmd .setPTT

/-- `setTune` (lines 1326-1345): a no-op while transmitting; on enable,
arm the 30-second tune timeout timer and send `2`; on disable send `ON`
(the value the source uses, see the BUG? note there). -/
def CivState.setTune (s : CivState) (enable : Bool) : CivState :=
  if s.ptt then s
  else
    let b : Nat := if enable then 2 else ON
    let s := if enable then { s with tuneTimerArmed := true } else s
    (s.initCmd .setTune (prepPacket .setTune [b])).sendCmd .setTune

/-- `setDataMode` (lines 1351-1363). -/
def CivState.setDataMode (s : CivState) (enable : Bool) : CivState :=
  let dataMode : Nat := if enable then ON else OFF
  let filter : Nat := if enable then 0x01 else OFF
  (s.initCmd .setDataMode (prepPacket .setDataMode [dataMode, filter])).sendCmd .setDataMode

/-- `setTuningStep` (lines 1424-1429). -/
def CivState.setTuningStep (s : CivState) (b : Nat) : CivState :=
  (s.initCmd .setTuningStep (prepPacket .setTuningStep [b])).sendCmd .setTuningStep

/-- `setVFO` (lines 1451-1457). -/
def CivState.setVFO (s : CivState) (nr : Nat) : CivState :=
  let s := (s.initCmd .setVFO (prepPacket .setVFO [nr])).sendCmd .setVFO
  s.getBothVFOMode

/-- `setSplit` (lines 1468-1485); the argument is the `splitMode` value. -/
def CivState.setSplit (s : CivState) (mode : Nat) : CivState :=
  let b : Nat :=
    if mode = splitModeOff then 0x10
    else if mode = splitModeOn then 0x01
    else if mode = splitModeDUPMinus then 0x11
    else if mode = splitModeDUPPlus then 0x12
    else 0x10
  (s.initCmd .setSplit (prepPacket .setSplit [b])).sendCmd .setSplit

/-! ## Inbound packet decoding (part_000 lines 320-977)

Every decoder returns `some (state, forward?)`, or `none` when the Go
code would panic with an index-out-of-range.  The mutex that the source
holds for the duration of a decode is implicit in the sequential model. -/

/-- The array reads performed by `statusLog.reportMode` /
`statusLog.reportSubMode` call sites: `civOperatingModes[modeIdx].name`
and `civFilters[filterIdx].name`.  Out-of-range indices (e.g. the `-1`
that `decodeVFOMode` can store) panic. -/
def reportModeCheck (modeIdx filterIdx : Int) : Option Unit :=
  if 0 ≤ modeIdx ∧ modeIdx < (civOperatingModeCodes.length : Int) ∧
      0 ≤ filterIdx ∧ filterIdx < (civFilterCodes.length : Int) then some ()
  else none

/-- `decodeFilterValueToFilterIdx` (lines 417-424). -/
def decodeFilterValueToFilterIdx (v : Nat) : Int :=
  match firstIdxWhere (fun c => decide (c = v)) civFilterCodes with
  | some i => (i : Int)
  | none => 0

/-- The band relocation of `decodeFreq` / `decodeVFOFreq` (lines
397-404, 893-900): default the band index to the last table entry, then
scan for the first band containing `freq` and remember `freq` in it. -/
def CivState.relocateBand (s : CivState) : CivState :=
  match firstIdxWhere (fun b => decide (b.1 ≤ s.freq) && decide (s.freq ≤ b.2)) civBands with
  | some i => { s with bandIdx := i, bandFreqs := s.bandFreqs.set i s.freq }
  | none => { s with bandIdx := civBands.length - 1 }

/-- `decodeFreq` (lines 390-415). -/
def CivState.decodeFreq (s : CivState) (d : List Nat) : Option (CivState × Bool) :=
  if d.length < 2 then some (s, !s.pending .getFreq && !s.pending .setMainVFOFreq)
  else
    let s := { s with freq := decodeFreqData d }
    let s := s.relocateBand
    if s.pending .getFreq then some (s.removePendingCmd .getFreq, false)
    else if s.pending .setMainVFOFreq then some (s.removePendingCmd .setMainVFOFreq, false)
    else some (s, true)

/-- `decodeMode` (lines 426-452).  The code-scan loop assigns
`operatingModeIdx` only when the code is found, and `filterIdx` is
assigned only when a second payload byte is present; the two assignments
are rendered as one record update with conditional field values. -/
def CivState.decodeMode (s : CivState) (d : List Nat) : Option (CivState × Bool) :=
  match d with
  | [] => some (s, !s.pending .setMode)
  | d0 :: rest =>
    let omIdx : Int :=
      match firstIdxWhere (fun c => decide (c = d0)) civOperatingModeCodes with
      | some i => (i : Int)
      | none => s.operatingModeIdx
    let fIdx : Int :=
      if 0 < rest.length then decodeFilterValueToFilterIdx (rest.headD 0) else s.filterIdx
    let s := { s with operatingModeIdx := omIdx, filterIdx := fIdx }
    match reportModeCheck s.operatingModeIdx s.filterIdx with
    | none => none
    | some _ =>
      if s.pending .setMode then some (s.removePendingCmd .setMode, false)
      else some (s, true)

/-- `decodeVFO` (lines 454-472). -/
def CivState.decodeVFO (s : CivState) (d : List Nat) : Option (CivState × Bool) :=
  match d with
  | [] => some (s, !s.pending .setVFO)
  | d0 :: _ =>
    let s := { s with vfoBActive := d0 = 1 }
    if s.pending .setVFO then
      let s := s.getBothVFOFreq
      some (s.removePendingCmd .setVFO, false)
    else some (s, true)

/-- `decodeSplit` (lines 474-505). -/
def CivState.decodeSplit (s : CivState) (d : List Nat) : Option (CivState × Bool) :=
  match d with
  | [] => some (s, !s.pending .getSplit && !s.pending .setSplit)
  | d0 :: _ =>
    let sm : Nat :=
      if d0 = 0x01 then splitModeOn
      else if d0 = 0x11 then splitModeDUPMinus
      else if d0 = 0x12 then splitModeDUPPlus
      else splitModeOff
    let s := { s with splitMode := sm }
    if s.pending .getSplit then some (s.removePendingCmd .getSplit, false)
    else if s.pending .setSplit then some (s.removePendingCmd .setSplit, false)
    else some (s, true)

/-- The `switch s.state.tsValue` table of `decodeTuningStep`
(lines 514-543). -/
def tsFromValue (v : Nat) : Nat :=
  if v = 1 then 100 else if v = 2 then 500 else if v = 3 then 1000
  else if v = 4 then 5000 else if v = 5 then 6250 else if v = 6 then 8330
  else if v = 7 then 9000 else if v = 8 then 10000 else if v = 9 then 12500
  else if v = 10 then 20000 else if v = 11 then 25000 else if v = 12 then 50000
  else if v = 13 then 100000 else 1

/-- `decodeTuningStep` (lines 507-555). -/
def CivState.decodeTuningStep (s : CivState) (d : List Nat) : Option (CivState × Bool) :=
  match d with
  | [] => some (s, !s.pending .getTuningStep && !s.pending .setTuningStep)
  | d0 :: _ =>
    let s := { s with tsValue := d0 }
    let s := { s with ts := tsFromValue s.tsValue }
    if s.pending .getTuningStep then some (s.removePendingCmd .getTuningStep, false)
    else if s.pending .setTuningStep then some (s.removePendingCmd .setTuningStep, false)
    else some (s, true)

/-- `decodeDataModeAndOVF` (lines 557-593): note `switch d[0]` runs before
any length check, so an empty payload panics. -/
def CivState.decodeDataModeAndOVF (s : CivState) (d : List Nat) : Option (CivState × Bool) :=
  match d with
  | [] => none
  | d0 :: _ =>
    if d0 = 0x06 then
      if d.length < 3 then some (s, !s.pending .setDataMode)
      else
        -- d[1] = 1 sets the data-mode flag and the filter; otherwise only
        -- the flag is cleared (the filter index keeps its value)
        let dm : Bool := d.getD 1 0 = 1
        let fI : Int :=
          if d.getD 1 0 = 1 then decodeFilterValueToFilterIdx (d.getD 2 0) else s.filterIdx
        let s := { s with dataMode := dm, filterIdx := fI }
        match reportModeCheck s.operatingModeIdx s.filterIdx with
        | none => none
        | some _ =>
          if s.pending .setDataMode then some (s.removePendingCmd .setDataMode, false)
          else some (s, true)
    else if d0 = 0x09 then
      if d.length < 2 then some (s, !s.pending .getOVF)
      else
        let s := { s with lastOVFReceivedAt := s.now }
        if s.pending .getOVF then some (s.removePendingCmd .getOVF, false)
        else some (s, true)
    else some (s, true)

/-- `decodePowerRFGainSQLNRPwr` (lines 595-693): `subcmd := d[0]` panics
on an empty payload; the empty `case` hooks (0x01, 0x07, …) and the
default all just return true.  Note that in the squelch branch a pending
`setSQL` returns false *without* clearing the slot (line 646). -/
def CivState.decodePowerRFGainSQLNRPwr (s : CivState) (d : List Nat) : Option (CivState × Bool) :=
  match d with
  | [] => none
  | subcmd :: data =>
    if subcmd = 0x02 then
      if data.length < 2 then some (s, !s.pending .getRFGain && !s.pending .setRFGain)
      else
        match BCDToDec data with
        | none => none
        | some v =>
          let s := { s with rfGainLevel := (v : Int) }
          if s.pending .getRFGain then some (s.removePendingCmd .getRFGain, false)
          else if s.pending .setRFGain then some (s.removePendingCmd .setRFGain, false)
          else some (s, true)
    else if subcmd = 0x03 then
      if data.length < 2 then some (s, !s.pending .getSQL && !s.pending .setSQL)
      else
        match BCDToDec data with
        | none => none
        | some v =>
          let s := { s with sqlLevel := (v : Int) }
          if s.pending .getSQL then some (s.removePendingCmd .getSQL, false)
          else if s.pending .setSQL then some (s, false)
          else some (s, true)
    else if subcmd = 0x06 then
      if data.length < 2 then some (s, !s.pending .getNR && !s.pending .setNR)
      else
        match BCDToDec data with
        | none => none
        | some v =>
          let s := { s with nrLevel := (v : Int) }
          if s.pending .getNR then some (s.removePendingCmd .getNR, false)
          else if s.pending .setNR then some (s.removePendingCmd .setNR, false)
          else some (s, true)
    else if subcmd = 0x0a then
      if data.length < 2 then some (s, !s.pending .getPwr && !s.pending .setPwr)
      else
        match BCDToDec data with
        | none => none
        | some v =>
          let s := { s with pwrLevel := (v : Int) }
          if s.pending .getPwr then some (s.removePendingCmd .getPwr, false)
          else if s.pending .setPwr then some (s.removePendingCmd .setPwr, false)
          else some (s, true)
    else some (s, true)

/-- The post-switch tail of `decodeTransmitStatus` (lines 744-752). -/
def CivState.transmitStatusTail (s : CivState) : Option (CivState × Bool) :=
  if s.pending .getTuneStatus then some (s.removePendingCmd .getTuneStatus, false)
  else if s.pending .getTransmitStatus then some (s.removePendingCmd .getTransmitStatus, false)
  else some (s, true)

/-- `decodeTransmitStatus` (lines 695-753).  On a PTT release the PTT
timeout timer is stopped and `getVd` is requested; on a tune finish the
tune timeout timer is stopped (and nil-ed) and `getVd` is requested.  The
1-second delayed `getTransmitStatus` scheduled on tune start is an
asynchronous event, covered by a separate `Step.publicOp` transition. -/
def CivState.decodeTransmitStatus (s : CivState) (d : List Nat) : Option (CivState × Bool) :=
  if d.length < 2 then
    some (s, !s.pending .getTuneStatus && !s.pending .getTransmitStatus && !s.pending .setPTT)
  else
    let d0 := d.getD 0 0
    let d1 := d.getD 1 0
    if d0 = 0 then
      let s :=
        if d1 = 1 then { s with ptt := true }
        else if s.ptt then ({ s with ptt := false, pttTimerArmed := false }).getVd
        else s
      if s.pending .setPTT then some (s.removePendingCmd .setPTT, false)
      else s.transmitStatusTail
    else if d0 = 1 then
      let s :=
        if d1 = 2 then { s with tune := true }
        else if s.tune then ({ s with tune := false, tuneTimerArmed := false }).getVd
        else s
      if s.pending .setTune then some (s.removePendingCmd .setTune, false)
      else s.transmitStatusTail
    else s.transmitStatusTail

/-- `decodeVdSWRS` (lines 755-819): `subcmd := d[0]` panics on an empty
payload.  The S-meter/SWR/Vd value rendering is display-only (its byte
reads are covered by the length guards). -/
def CivState.decodeVdSWRS (s : CivState) (d : List Nat) : Option (CivState × Bool) :=
  match d with
  | [] => none
  | subcmd :: data =>
    if subcmd = 0x02 then
      if data.length < 2 then some (s, !s.pending .getS)
      else
        let s := { s with lastSReceivedAt := s.now }
        if s.pending .getS then some (s.removePendingCmd .getS, false)
        else some (s, true)
    else if subcmd = 0x12 then
      if d.length < 3 then some (s, !s.pending .getSWR)
      else
        let s := { s with lastSWRReceivedAt := s.now }
        if s.pending .getSWR then some (s.removePendingCmd .getSWR, false)
        else some (s, true)
    else if subcmd = 0x15 then
      if d.length < 3 then some (s, !s.pending .getVd)
      else
        if s.pending .getVd then some (s.removePendingCmd .getVd, false)
        else some (s, true)
    else some (s, true)

/-- `decodePreampAGCNREnabled` (lines 821-882): `subcmd := d[0]` panics
on an empty payload. -/
def CivState.decodePreampAGCNREnabled (s : CivState) (d : List Nat) : Option (CivState × Bool) :=
  match d with
  | [] => none
  | subcmd :: data =>
    if subcmd = 0x02 then
      if data.length < 1 then some (s, !s.pending .getPreamp && !s.pending .setPreamp)
      else
        let s := { s with preamp := (data.headD 0 : Int) }
        if s.pending .getPreamp then some (s.removePendingCmd .getPreamp, false)
        else if s.pending .setPreamp then some (s.removePendingCmd .setPreamp, false)
        else some (s, true)
    else if subcmd = 0x12 then
      if data.length < 1 then some (s, !s.pending .getAGC && !s.pending .setAGC)
      else
        let s := { s with agc := (data.headD 0 : Int) }
        if s.pending .getAGC then some (s.removePendingCmd .getAGC, false)
        else if s.pending .setAGC then some (s.removePendingCmd .setAGC, false)
        else some (s, true)
    else if subcmd = 0x40 then
      if data.length < 1 then some (s, !s.pending .getNREnabled && !s.pending .setNREnabled)
      else
        let s := { s with nrEnabled := data.headD 0 = 1 }
        if s.pending .getNREnabled then some (s.removePendingCmd .getNREnabled, false)
        else if s.pending .setNREnabled then some (s.removePendingCmd .setNREnabled, false)
        else some (s, true)
    else some (s, true)

/-- `decodeVFOFreq` (lines 884-923). -/
def CivState.decodeVFOFreq (s : CivState) (d : List Nat) : Option (CivState × Bool) :=
  if d.length < 2 then
    some (s, !s.pending .getMainVFOFreq && !s.pending .getSubVFOFreq && !s.pending .setSubVFOFreq)
  else
    let f := decodeFreqData (d.drop 1)
    if d.getD 0 0 = 0x01 then
      let s := { s with subFreq := f }
      if s.pending .getSubVFOFreq then some (s.removePendingCmd .getSubVFOFreq, false)
      else if s.pending .setSubVFOFreq then some (s.removePendingCmd .setSubVFOFreq, false)
      else some (s, true)
    else
      let s := { s with freq := f }
      let s := s.relocateBand
      if s.pending .getMainVFOFreq then some (s.removePendingCmd .getMainVFOFreq, false)
      else if s.pending .setMainVFOFreq then some (s.removePendingCmd .setMainVFOFreq, false)
      else some (s, true)

/-- `decodeVFOMode` (lines 925-977): an unknown mode code stores `-1`
into the operating-mode index, and a short payload stores `-1` into the
sub filter index; the subsequent report then panics (modelled by
`reportModeCheck`). -/
def CivState.decodeVFOMode (s : CivState) (d : List Nat) : Option (CivState × Bool) :=
  if d.length < 2 then
    some (s, !s.pending .getMainVFOMode && !s.pending .getSubVFOMode && !s.pending .setSubVFOMode)
  else
    let omIdx : Int :=
      match firstIdxWhere (fun c => decide (c = d.getD 1 0)) civOperatingModeCodes with
      | some i => (i : Int)
      | none => -1
    let dM : Bool := if 2 < d.length ∧ d.getD 2 0 ≠ 0 then true else false
    let fIdx : Int := if 3 < d.length then decodeFilterValueToFilterIdx (d.getD 3 0) else -1
    if d.getD 0 0 = 0x01 then
      let s := { s with subOperatingModeIdx := omIdx, subDataMode := dM, subFilterIdx := fIdx }
      match reportModeCheck s.subOperatingModeIdx s.subFilterIdx with
      | none => none
      | some _ =>
        if s.pending .getSubVFOMode then some (s.removePendingCmd .getSubVFOMode, false)
        else if s.pending .setSubVFOMode then some (s.removePendingCmd .setSubVFOMode, false)
        else some (s, true)
    else
      let s := { s with operatingModeIdx := omIdx, dataMode := dM }
      let s := if 0 ≤ fIdx then { s with filterIdx := fIdx } else s
      match reportModeCheck s.operatingModeIdx s.filterIdx with
      | none => none
      | some _ =>
        if s.pending .getMainVFOMode then some (s.removePendingCmd .getMainVFOMode, false)
        else some (s, true)

/-- `decode` (lines 320-387): frame sanity check, then dispatch on the
command byte `d[4]`; the payload is `d[5 : len(d)-1]`.  The unimplemented
transceive command `0x02` returns false directly. -/
def CivState.decode (s : CivState) (d : List Nat) : Option (CivState × Bool) :=
  if d.length < 6 ∨ d.getD 0 0 ≠ 0xfe ∨ d.getD 1 0 ≠ 0xfe ∨ d.getD (d.length - 1) 0 ≠ 0xfd then
    some (s, true)
  else
    let payload := (d.drop 5).dropLast
    let c := d.getD 4 0
    if c = 0x00 then s.decodeFreq payload
    else if c = 0x01 then s.decodeMode payload
    else if c = 0x02 then some (s, false)
    else if c = 0x03 then s.decodeFreq payload
    else if c = 0x04 then s.decodeMode payload
    else if c = 0x05 then s.decodeFreq payload
    else if c = 0x06 then s.decodeMode payload
    else if c = 0x07 then s.decodeVFO payload
    else if c = 0x0f then s.decodeSplit payload
    else if c = 0x10 then s.decodeTuningStep payload
    else if c = 0x1a then s.decodeDataModeAndOVF payload
    else if c = 0x14 then s.decodePowerRFGainSQLNRPwr payload
    else if c = 0x1c then s.decodeTransmitStatus payload
    else if c = 0x15 then s.decodeVdSWRS payload
    else if c = 0x16 then s.decodePreampAGCNREnabled payload
    else if c = 0x25 then s.decodeVFOFreq payload
    else if c = 0x26 then s.decodeVFOMode payload
    else some (s, true)

/-! ## Initial state and the transition system -/

/-- The controller state right after `init(st)` stores the serial stream
(part_000 line 1652): the Go zero value of `civControlStruct.state`
(empty pending list, cleared flags and mirrors, `freq`-memory column of
`civBands` zeroed) with `connected = true`. -/
def initialState : CivState :=
  { connected := true
    now := 0
    pendingCmds := []
    pending := fun _ => false
    sentAt := fun _ => 0
    cmdData := fun _ => []
    lastSReceivedAt := 0
    lastOVFReceivedAt := 0
    lastSWRReceivedAt := 0
    lastVFOFreqReceivedAt := 0
    pttTimerArmed := false
    tuneTimerArmed := false
    freq := 0
    subFreq := 0
    ptt := false
    tune := false
    pwrLevel := 0
    rfGainLevel := 0
    sqlLevel := 0
    nrLevel := 0
    nrEnabled := false
    operatingModeIdx := 0
    dataMode := false
    filterIdx := 0
    subOperatingModeIdx := 0
    subDataMode := false
    subFilterIdx := 0
    bandIdx := 0
    preamp := 0
    agc := 0
    tsValue := 0
    ts := 0
    vfoBActive := false
    splitMode := 0
    bandFreqs := List.replicate 12 0
    transmitted := [] }

/-- The public get/set operations of the controller (the exported
`initCmd`-then-`sendCmd` methods of part_000 lines 1141-1597). -/
inductive PublicOp
  | setPwr (level : Int) | setRFGain (level : Int) | setSQL (level : Int) | setNR (level : Int)
  | setMainVFOFreq (f : Nat) | setSubVFOFreq (f : Nat)
  | setOperatingModeAndFilter (modeCode filterCode : Nat)
  | setSubVFOMode (modeCode dataMode filterCode : Nat)
  | setPTT (enable : Bool) | setTune (enable : Bool) | setDataMode (enable : Bool)
  | setTuningStep (b : Nat) | setVFO (nr : Nat) | setSplit (mode : Nat)
  | getFreq | getPwr | getTransmitStatus | getPreamp | getAGC | getVd | getS
  | getOVF | getSWR | getTuningStep | getRFGain | getSQL | getNR
  | getNREnabled | getSplit | getBothVFOFreq | getBothVFOMode

/-- Dispatch a public operation to its method. -/
def PublicOp.run : PublicOp → CivState → CivState
  | .setPwr level, s => s.setPwr level
  | .setRFGain level, s => s.setRFGain level
  | .setSQL level, s => s.setSQL level
  | .setNR level, s => s.setNR level
  | .setMainVFOFreq f, s => s.setMainVFOFreq f
  | .setSubVFOFreq f, s => s.setSubVFOFreq f
  | .setOperatingModeAndFilter m f, s => s.setOperatingModeAndFilter m f
  | .setSubVFOMode m dm f, s => s.setSubVFOMode m dm f
  | .setPTT enable, s => s.setPTT enable
  | .setTune enable, s => s.setTune enable
  | .setDataMode enable, s => s.setDataMode enable
  | .setTuningStep b, s => s.setTuningStep b
  | .setVFO nr, s => s.setVFO nr
  | .setSplit mode, s => s.setSplit mode
  | .getFreq, s => s.getFreq
  | .getPwr, s => s.getPwr
  | .getTransmitStatus, s => s.getTransmitStatus
  | .getPreamp, s => s.getPreamp
  | .getAGC, s => s.getAGC
  | .getVd, s => s.getVd
  | .getS, s => s.getS
  | .getOVF, s => s.getOVF
  | .getSWR, s => s.getSWR
  | .getTuningStep, s => s.getTuningStep
  | .getRFGain, s => s.getRFGain
  | .getSQL, s => s.getSQL
  | .getNR, s => s.getNR
  | .getNREnabled, s => s.getNREnabled
  | .getSplit, s => s.getSplit
  | .getBothVFOFreq, s => s.getBothVFOFreq
  | .getBothVFOMode, s => s.getBothVFOMode

/-- One transition of the controller: a public operation, a successful
decode of an inbound packet, the PTT timeout firing (the
`time.AfterFunc` closure of `setPTT` runs `setPTT(false)`), the tune
timeout firing (the closure nils the timer, then runs `setTune(false)`),
or the retry loop resending a pending command (part_000 lines 1639-1646). -/
inductive Step : CivState → CivState → Prop
  | publicOp (s : CivState) (op : PublicOp) : Step s (op.run s)
  | decodePkt (s s' : CivState) (d : List Nat) (b : Bool)
      (h : s.decode d = some (s', b)) : Step s s'
  | pttTimerFire (s : CivState) (h : s.pttTimerArmed = true) :
      Step s (({ s with pttTimerArmed := false }).setPTT false)
  | tuneTimerFire (s : CivState) (h : s.tuneTimerArmed = true) :
      Step s (({ s with tuneTimerArmed := false }).setTune false)
  | retrySend (s : CivState) (x : CmdSlot) (h : x ∈ s.pendingCmds) :
      Step s (s.sendCmd x)

/-- States of the connected controller reachable from `initialState`. -/
def Reachable (s : CivState) : Prop :=
  Relation.ReflTransGen Step initialState s

/-- The pending-set invariant of the connected controller: a slot is in
the pending list iff its pending flag is set, the list has no duplicate
slots, and the serial stream is attached. -/
def Good (s : CivState) : Prop :=
  (∀ x : CmdSlot, x ∈ s.pendingCmds ↔ s.pending x = true) ∧
    s.pendingCmds.Nodup ∧ s.connected = true

/-- What one successful decode establishes: the invariant is preserved,
the PTT-timeout timer never survives a true→false transition of the
mirrored PTT, and a packet that removes some slot from the pending set is
not forwarded. -/
def DecodeOK (s s' : CivState) (b : Bool) : Prop :=
  Good s' ∧ (s.ptt = true → s'.ptt = false → s'.pttTimerArmed = false) ∧
    (∀ x : CmdSlot, x ∈ s.pendingCmds → x ∉ s'.pendingCmds → b = false)

/-- States that agree with `s` on everything the decode bookkeeping
cares about. -/
def SameCore (s t : CivState) : Prop :=
  t.pendingCmds = s.pendingCmds ∧ t.pending = s.pending ∧ t.connected = s.connected ∧
    t.ptt = s.ptt ∧ t.pttTimerArmed = s.pttTimerArmed

/-- The state after decoding `d` in state `s` (the packet-discarded/crash
cases fall back to `s`); used to name concrete post-decode states. -/
def civStateAfter (s : CivState) (d : List Nat) : CivState :=
  match s.decode d with
  | some (s', _) => s'
  | none => s

/-! ## Observables of one decode, for the forwarding/clearing
characterization

`ClearedSlot`, `SkippedSlot` and `ShortResult` describe what one decode
producing the result `(s', b)` did to a given slot and to the forward
flag; `PriorityClears` strings them along the order in which a decoder
branch checks its slots: the first pending slot of the list is cleared
and the packet is not forwarded, and when none is pending the packet is
forwarded. -/

/-- The frame sanity check of `decode` (part_000 line 328) passes. -/
def WellFormedPkt (d : List Nat) : Prop :=
  ¬(d.length < 6 ∨ d.getD 0 0 ≠ 0xfe ∨ d.getD 1 0 ≠ 0xfe ∨ d.getD (d.length - 1) 0 ≠ 0xfd)

/-- The command byte `d[4]` of a CI-V frame. -/
def pktCmd (d : List Nat) : Nat := d.getD 4 0

/-- The payload `d[5 : len(d)-1]` of a CI-V frame. -/
def pktPayload (d : List Nat) : List Nat := (d.drop 5).dropLast

/-- The command bytes `decode` dispatches on (part_000 lines 350-385). -/
def knownCmds : List Nat :=
  [0x00, 0x01, 0x02, 0x03, 0x04, 0x05, 0x06, 0x07, 0x0f, 0x10, 0x1a, 0x14, 0x1c, 0x15,
   0x16, 0x25, 0x26]

/-- The decode result `(s', b)` cleared slot `x`: flag cleared, slot
removed from the pending set, packet not forwarded. -/
def ClearedSlot (s' : CivState) (b : Bool) (x : CmdSlot) : Prop :=
  b = false ∧ s'.pending x = false ∧ x ∉ s'.pendingCmds

/-- The decode result `(s', b)` withheld the packet but left slot `x`
pending and in the pending set (the `setSQL` behaviour of part_000
line 646). -/
def SkippedSlot (s' : CivState) (b : Bool) (x : CmdSlot) : Prop :=
  b = false ∧ s'.pending x = true ∧ x ∈ s'.pendingCmds

/-- The decode result `(s', b)` of a packet too short for its command:
the state is untouched (every pending slot is left in place) and the
packet is withheld exactly when one of the command's slots `xs` is
pending. -/
def ShortResult (s s' : CivState) (b : Bool) (xs : List CmdSlot) : Prop :=
  s' = s ∧ (b = false ↔ (xs.any fun x => s.pending x) = true)

/-- The decode result `(s', b)` cleared the first pending slot of `xs`
(in the decoder's checking order) and forwarded the packet when none
was pending. -/
def PriorityClears (s s' : CivState) (b : Bool) : List CmdSlot → Prop
  | [] => b = true
  | x :: rest => (s.pending x = true → ClearedSlot s' b x) ∧
      (s.pending x = false → PriorityClears s s' b rest)

/-! ## List-level lemmas for the pending-set bookkeeping -/

theorem firstIdxWhere_eq_none {p : α → Bool} {l : List α} :
    firstIdxWhere p l = none ↔ ∀ a ∈ l, p a = false := by
  induction l with
  | nil => simp [firstIdxWhere]
  | cons a t ih =>
    by_cases h : p a
    · simp [firstIdxWhere, h]
    · simp only [firstIdxWhere, if_neg h, Option.map_eq_none', ih, List.mem_cons]
      constructor
      · rintro hall b (rfl | hb)
        · exact Bool.eq_false_iff.mpr h
        · exact hall b hb
      · intro hall b hb
        exact hall b (Or.inr hb)

theorem firstIdxWhere_eq_some {p : α → Bool} {l : List α} {i : Nat}
    (h : firstIdxWhere p l = some i) : ∃ hi : i < l.length, p (l.get ⟨i, hi⟩) = true := by
  induction l generalizing i with
  | nil => simp [firstIdxWhere] at h
  | cons a t ih =>
    by_cases ha : p a
    · simp only [firstIdxWhere, if_pos ha, Option.some.injEq] at h
      subst h
      exact ⟨by simp, by simpa using ha⟩
    · simp only [firstIdxWhere, if_neg ha, Option.map_eq_some'] at h
      obtain ⟨j, hj, rfl⟩ := h
      obtain ⟨hjlen, hjp⟩ := ih hj
      exact ⟨by simpa using Nat.succ_lt_succ hjlen, by simpa using hjp⟩

theorem length_swapRemoveAt {l : List α} (i : Nat) (h : l ≠ []) :
    (swapRemoveAt l i).length = l.length - 1 := by
  unfold swapRemoveAt
  rw [List.getLast?_eq_getLast l h]
  simp

theorem getElem_swapRemoveAt {l : List α} {i j : Nat} (hne : l ≠ [])
    (hj : j < (swapRemoveAt l i).length) (hj2 : j < l.length) :
    (swapRemoveAt l i)[j] = if i = j then l.getLast hne else l[j] := by
  have hj' : j < l.length - 1 := by
    have := length_swapRemoveAt (l := l) i hne
    omega
  simp only [swapRemoveAt, List.getLast?_eq_getLast l hne]
  rw [List.getElem_dropLast, List.getElem_set]

theorem nodup_getElem_iff {l : List α} :
    l.Nodup ↔ ∀ (i j : Nat) (hi : i < l.length) (hj : j < l.length), l[i] = l[j] → i = j := by
  rw [List.nodup_iff_injective_getElem]
  constructor
  · intro h i j hi hj hij
    have : (⟨i, hi⟩ : Fin l.length) = ⟨j, hj⟩ := h hij
    simpa using congrArg Fin.val this
  · intro h i j hij
    exact Fin.ext (h i.1 j.1 i.2 j.2 hij)

theorem mem_swapRemoveAt {l : List α} {i : Nat} (hi : i < l.length) (hnd : l.Nodup) (y : α) :
    y ∈ swapRemoveAt l i ↔ y ∈ l ∧ y ≠ l[i] := by
  have hne : l ≠ [] := by rintro rfl; simp at hi
  have hlen := length_swapRemoveAt (l := l) i hne
  have hm1 : l.length - 1 < l.length := by omega
  have hlast : l.getLast hne = l[l.length - 1] := List.getLast_eq_getElem l hne
  have hndg := nodup_getElem_iff.mp hnd
  constructor
  · intro hy
    rw [List.mem_iff_getElem] at hy
    obtain ⟨j, hj, hyj⟩ := hy
    have hj' : j < l.length - 1 := by omega
    have hj2 : j < l.length := by omega
    rw [getElem_swapRemoveAt hne hj hj2] at hyj
    by_cases hij : i = j
    · rw [if_pos hij, hlast] at hyj
      subst hyj
      refine ⟨List.getElem_mem _, fun hcon => ?_⟩
      have := hndg (l.length - 1) i hm1 hi hcon
      omega
    · rw [if_neg hij] at hyj
      subst hyj
      refine ⟨List.getElem_mem _, fun hcon => ?_⟩
      have := hndg j i hj2 hi hcon
      omega
  · rintro ⟨hy, hneq⟩
    rw [List.mem_iff_getElem] at hy
    obtain ⟨j, hj, hyj⟩ := hy
    have hij : i ≠ j := by
      rintro rfl
      exact hneq hyj.symm
    rw [List.mem_iff_getElem]
    by_cases hj1 : j < l.length - 1
    · refine ⟨j, by omega, ?_⟩
      rw [getElem_swapRemoveAt hne (by omega) (by omega), if_neg hij]
      exact hyj
    · have hj2 : j = l.length - 1 := by omega
      have hi1 : i < l.length - 1 := by omega
      refine ⟨i, by omega, ?_⟩
      rw [getElem_swapRemoveAt hne (by omega) hi, if_pos rfl, hlast]
      subst hj2
      exact hyj

theorem nodup_swapRemoveAt {l : List α} {i : Nat} (hi : i < l.length) (hnd : l.Nodup) :
    (swapRemoveAt l i).Nodup := by
  have hne : l ≠ [] := by rintro rfl; simp at hi
  have hlen := length_swapRemoveAt (l := l) i hne
  have hm1 : l.length - 1 < l.length := by omega
  have hlast : l.getLast hne = l[l.length - 1] := List.getLast_eq_getElem l hne
  have hndg := nodup_getElem_iff.mp hnd
  rw [nodup_getElem_iff]
  intro j k hj hk hjk
  rw [getElem_swapRemoveAt hne hj (by omega), getElem_swapRemoveAt hne hk (by omega)] at hjk
  by_cases hij : i = j <;> by_cases hik : i = k
  · omega
  · rw [if_pos hij, if_neg hik, hlast] at hjk
    have := hndg (l.length - 1) k hm1 (by omega) hjk
    omega
  · rw [if_neg hij, if_pos hik, hlast] at hjk
    have := hndg j (l.length - 1) (by omega) hm1 hjk
    omega
  · rw [if_neg hij, if_neg hik] at hjk
    exact hndg j k (by omega) (by omega) hjk

/-! ## Bookkeeping lemmas for `initCmd` / `sendCmd` / `removePendingCmd` -/

theorem sendCmd_ptt (s : CivState) (x : CmdSlot) : (s.sendCmd x).ptt = s.ptt := by
  unfold CivState.sendCmd
  split
  · rfl
  · dsimp only
    split <;> rfl

theorem initCmd_ptt (s : CivState) (x : CmdSlot) (d : List Nat) :
    (s.initCmd x d).ptt = s.ptt := rfl

theorem sendCmd_pttTimerArmed (s : CivState) (x : CmdSlot) :
    (s.sendCmd x).pttTimerArmed = s.pttTimerArmed := by
  unfold CivState.sendCmd
  split
  · rfl
  · dsimp only
    split <;> rfl

theorem mem_sendCmd (s : CivState) (x y : CmdSlot) (h : y ∈ s.pendingCmds) :
    y ∈ (s.sendCmd x).pendingCmds := by
  unfold CivState.sendCmd
  split
  · exact h
  · dsimp only
    split
    · simpa using Or.inl h
    · exact h

theorem good_initSend {s : CivState} (h : Good s) (x : CmdSlot) (d : List Nat) :
    Good ((s.initCmd x d).sendCmd x) := by
  obtain ⟨hiff, hnd, hcon⟩ := h
  cases hfi : firstIdxWhere (fun y => decide (y = x)) s.pendingCmds with
  | none =>
    have hx : x ∉ s.pendingCmds := by
      rw [firstIdxWhere_eq_none] at hfi
      intro hx
      simpa using hfi x hx
    refine ⟨?_, ?_, ?_⟩ <;>
      simp only [CivState.sendCmd, CivState.getPendingCmdIndex, CivState.initCmd, hfi, hcon]
    · intro y
      by_cases hyx : y = x
      · subst hyx
        simp
      · simp [hyx]
        exact hiff y
    · simp [List.nodup_append, hnd, hx]
    · rfl
  | some i =>
    have hx : x ∈ s.pendingCmds := by
      obtain ⟨hi, hp⟩ := firstIdxWhere_eq_some hfi
      have : s.pendingCmds.get ⟨i, hi⟩ = x := of_decide_eq_true hp
      rw [← this]
      exact List.get_mem _ _ _
    refine ⟨?_, ?_, ?_⟩ <;>
      simp only [CivState.sendCmd, CivState.getPendingCmdIndex, CivState.initCmd, hfi, hcon]
    · intro y
      by_cases hyx : y = x
      · subst hyx
        simp [hx]
      · simp [hyx]
        exact hiff y
    · exact hnd
    · rfl

theorem good_sendCmd {s : CivState} (h : Good s) (x : CmdSlot) : Good (s.sendCmd x) := by
  obtain ⟨hiff, hnd, hcon⟩ := h
  cases hfi : firstIdxWhere (fun y => decide (y = x)) s.pendingCmds with
  | none =>
    have hx : x ∉ s.pendingCmds := by
      rw [firstIdxWhere_eq_none] at hfi
      intro hx
      simpa using hfi x hx
    refine ⟨?_, ?_, ?_⟩ <;>
      simp only [CivState.sendCmd, CivState.getPendingCmdIndex, hfi, hcon]
    · intro y
      by_cases hyx : y = x
      · subst hyx
        simp
      · simp [hyx]
        exact hiff y
    · simp [List.nodup_append, hnd, hx]
    · rfl
  | some i =>
    have hx : x ∈ s.pendingCmds := by
      obtain ⟨hi, hp⟩ := firstIdxWhere_eq_some hfi
      have : s.pendingCmds.get ⟨i, hi⟩ = x := of_decide_eq_true hp
      rw [← this]
      exact List.get_mem _ _ _
    refine ⟨?_, ?_, ?_⟩ <;>
      simp only [CivState.sendCmd, CivState.getPendingCmdIndex, hfi, hcon]
    · intro y
      by_cases hyx : y = x
      · subst hyx
        simp [hx]
      · simp [hyx]
        exact hiff y
    · exact hnd
    · rfl

theorem good_of_eq {s t : CivState} (h : Good s) (h1 : t.pendingCmds = s.pendingCmds)
    (h2 : t.pending = s.pending) (h3 : t.connected = s.connected) : Good t := by
  obtain ⟨hiff, hnd, hcon⟩ := h
  refine ⟨fun x => ?_, ?_, ?_⟩
  · rw [h1, h2]
    exact hiff x
  · rw [h1]
    exact hnd
  · rw [h3, hcon]

theorem good_removePendingCmd {s : CivState} (h : Good s) (x : CmdSlot) :
    Good (s.removePendingCmd x) := by
  obtain ⟨hiff, hnd, hcon⟩ := h
  unfold CivState.removePendingCmd CivState.getPendingCmdIndex
  dsimp only
  cases hfi : firstIdxWhere (fun y => decide (y = x)) s.pendingCmds with
  | none =>
    have hx : x ∉ s.pendingCmds := by
      rw [firstIdxWhere_eq_none] at hfi
      intro hx
      simpa using hfi x hx
    refine ⟨fun y => ?_, hnd, hcon⟩
    by_cases hyx : y = x
    · subst hyx
      simp [hx]
    · simp [hyx]
      exact hiff y
  | some i =>
    obtain ⟨hi, hp⟩ := firstIdxWhere_eq_some hfi
    have hgx : s.pendingCmds[i] = x := of_decide_eq_true hp
    have hmem := mem_swapRemoveAt (l := s.pendingCmds) hi hnd
    dsimp only
    refine ⟨fun y => ?_, nodup_swapRemoveAt hi hnd, hcon⟩
    have hy := hmem y
    rw [hgx] at hy
    rw [hy]
    by_cases hyx : y = x
    · subst hyx
      simp
    · simp only [if_neg hyx]
      constructor
      · rintro ⟨h1, _⟩
        exact (hiff y).mp h1
      · intro h1
        exact ⟨(hiff y).mpr h1, hyx⟩

theorem removePendingCmd_ptt (s : CivState) (x : CmdSlot) :
    (s.removePendingCmd x).ptt = s.ptt := by
  unfold CivState.removePendingCmd
  dsimp only
  split <;> rfl

theorem removePendingCmd_pttTimerArmed (s : CivState) (x : CmdSlot) :
    (s.removePendingCmd x).pttTimerArmed = s.pttTimerArmed := by
  unfold CivState.removePendingCmd
  dsimp only
  split <;> rfl

theorem initSend_ptt (s : CivState) (x : CmdSlot) (d : List Nat) :
    ((s.initCmd x d).sendCmd x).ptt = s.ptt := by
  rw [sendCmd_ptt]
  rfl

theorem initSend_pttTimerArmed (s : CivState) (x : CmdSlot) (d : List Nat) :
    ((s.initCmd x d).sendCmd x).pttTimerArmed = s.pttTimerArmed := by
  rw [sendCmd_pttTimerArmed]
  rfl

theorem mem_initSend (s : CivState) (x y : CmdSlot) (d : List Nat) (h : y ∈ s.pendingCmds) :
    y ∈ ((s.initCmd x d).sendCmd x).pendingCmds :=
  mem_sendCmd _ x y h

theorem sameCore_refl (s : CivState) : SameCore s s := ⟨rfl, rfl, rfl, rfl, rfl⟩

theorem sameCore_trans {s t u : CivState} (h1 : SameCore s t) (h2 : SameCore t u) :
    SameCore s u := by
  obtain ⟨a1, b1, c1, d1, e1⟩ := h1
  obtain ⟨a2, b2, c2, d2, e2⟩ := h2
  exact ⟨a2.trans a1, b2.trans b1, c2.trans c1, d2.trans d1, e2.trans e1⟩

theorem sameCore_relocateBand (s : CivState) : SameCore s s.relocateBand := by
  unfold CivState.relocateBand
  split <;> exact ⟨rfl, rfl, rfl, rfl, rfl⟩

theorem good_of_sameCore {s t : CivState} (h : Good s) (hc : SameCore s t) : Good t :=
  good_of_eq h hc.1 hc.2.1 hc.2.2.1

theorem ptt_clause_of_eq {s t : CivState} (h : t.ptt = s.ptt) :
    s.ptt = true → t.ptt = false → t.pttTimerArmed = false := by
  intro h1 h2
  rw [h, h1] at h2
  cases h2

/-- `DecodeOK` for a branch that returns a `SameCore` state with any
forward flag. -/
theorem decodeOK_same {s t : CivState} (h : Good s) (hc : SameCore s t) (b : Bool) :
    DecodeOK s t b := by
  refine ⟨good_of_sameCore h hc, ptt_clause_of_eq hc.2.2.2.1, fun x hx hx' => ?_⟩
  rw [hc.1] at hx'
  exact absurd hx hx'

/-- `DecodeOK` for a branch that removes a pending slot from a `SameCore`
state and returns false. -/
theorem decodeOK_remove {s t : CivState} (h : Good s) (hc : SameCore s t) (x : CmdSlot) :
    DecodeOK s (t.removePendingCmd x) false := by
  refine ⟨good_removePendingCmd (good_of_sameCore h hc) x, ?_, fun _ _ _ => rfl⟩
  exact ptt_clause_of_eq ((removePendingCmd_ptt t x).trans hc.2.2.2.1)

theorem getBothVFOFreq_ptt (s : CivState) : s.getBothVFOFreq.ptt = s.ptt := by
  unfold CivState.getBothVFOFreq
  dsimp only
  rw [initSend_ptt, initSend_ptt]

theorem getBothVFOFreq_pttTimerArmed (s : CivState) :
    s.getBothVFOFreq.pttTimerArmed = s.pttTimerArmed := by
  unfold CivState.getBothVFOFreq
  dsimp only
  rw [initSend_pttTimerArmed, initSend_pttTimerArmed]

theorem good_getBothVFOFreq {s : CivState} (h : Good s) : Good s.getBothVFOFreq :=
  good_initSend (good_initSend h _ _) _ _

theorem decodeOK_remove_getBoth {s t : CivState} (h : Good s) (hc : SameCore s t) (x : CmdSlot) :
    DecodeOK s ((t.getBothVFOFreq).removePendingCmd x) false := by
  refine ⟨good_removePendingCmd (good_getBothVFOFreq (good_of_sameCore h hc)) x, ?_,
    fun _ _ _ => rfl⟩
  exact ptt_clause_of_eq
    (((removePendingCmd_ptt _ x).trans (getBothVFOFreq_ptt t)).trans hc.2.2.2.1)

theorem good_getVd {s : CivState} (h : Good s) : Good s.getVd :=
  good_initSend h _ _

theorem getVd_ptt (s : CivState) : s.getVd.ptt = s.ptt := initSend_ptt s _ _

theorem getVd_pttTimerArmed (s : CivState) : s.getVd.pttTimerArmed = s.pttTimerArmed :=
  initSend_pttTimerArmed s _ _

theorem mem_getVd (s : CivState) (y : CmdSlot) (h : y ∈ s.pendingCmds) :
    y ∈ s.getVd.pendingCmds :=
  mem_initSend s _ y _ h

/-- What the post-switch tail of `decodeTransmitStatus` establishes. -/
theorem transmitStatusTail_spec {u s' : CivState} {b : Bool} (hgu : Good u)
    (ht : u.transmitStatusTail = some (s', b)) :
    Good s' ∧ s'.ptt = u.ptt ∧ s'.pttTimerArmed = u.pttTimerArmed ∧ (b = true → s' = u) := by
  unfold CivState.transmitStatusTail at ht
  split at ht
  · simp only [Option.some.injEq, Prod.mk.injEq] at ht
    obtain ⟨rfl, rfl⟩ := ht
    exact ⟨good_removePendingCmd hgu _, removePendingCmd_ptt u _,
      removePendingCmd_pttTimerArmed u _, fun hcon => by cases hcon⟩
  · split at ht
    · simp only [Option.some.injEq, Prod.mk.injEq] at ht
      obtain ⟨rfl, rfl⟩ := ht
      exact ⟨good_removePendingCmd hgu _, removePendingCmd_ptt u _,
        removePendingCmd_pttTimerArmed u _, fun hcon => by cases hcon⟩
    · simp only [Option.some.injEq, Prod.mk.injEq] at ht
      obtain ⟨rfl, rfl⟩ := ht
      exact ⟨hgu, rfl, rfl, fun _ => rfl⟩

/-! ## The decode sweep: every decoder branch satisfies `DecodeOK` -/

/-! ## The decode sweep: every decoder branch satisfies `DecodeOK` -/

theorem decodeFreq_ok {s s' : CivState} {d : List Nat} {b : Bool} (h : Good s)
    (hd : s.decodeFreq d = some (s', b)) : DecodeOK s s' b := by
  unfold CivState.decodeFreq at hd
  try dsimp only at hd
  repeat' split at hd
  all_goals
    first
      | exact Option.noConfusion hd
      | (simp only [Option.some.injEq, Prod.mk.injEq] at hd
         obtain ⟨rfl, rfl⟩ := hd
         first
           | (refine decodeOK_same h ?_ _
              exact ⟨rfl, rfl, rfl, rfl, rfl⟩)
           | (refine decodeOK_remove h ?_ _
              exact ⟨rfl, rfl, rfl, rfl, rfl⟩)
           | (refine decodeOK_same h (sameCore_trans ?_ (sameCore_relocateBand _)) _
              exact ⟨rfl, rfl, rfl, rfl, rfl⟩)
           | (refine decodeOK_remove h (sameCore_trans ?_ (sameCore_relocateBand _)) _
              exact ⟨rfl, rfl, rfl, rfl, rfl⟩)
           | (refine decodeOK_remove_getBoth h ?_ _
              exact ⟨rfl, rfl, rfl, rfl, rfl⟩))

theorem decodeMode_ok {s s' : CivState} {d : List Nat} {b : Bool} (h : Good s)
    (hd : s.decodeMode d = some (s', b)) : DecodeOK s s' b := by
  unfold CivState.decodeMode at hd
  cases d <;> try dsimp only at hd
  all_goals repeat' split at hd
  all_goals
    first
      | exact Option.noConfusion hd
      | (simp only [Option.some.injEq, Prod.mk.injEq] at hd
         obtain ⟨rfl, rfl⟩ := hd
         first
           | (refine decodeOK_same h ?_ _
              exact ⟨rfl, rfl, rfl, rfl, rfl⟩)
           | (refine decodeOK_remove h ?_ _
              exact ⟨rfl, rfl, rfl, rfl, rfl⟩)
           | (refine decodeOK_same h (sameCore_trans ?_ (sameCore_relocateBand _)) _
              exact ⟨rfl, rfl, rfl, rfl, rfl⟩)
           | (refine decodeOK_remove h (sameCore_trans ?_ (sameCore_relocateBand _)) _
              exact ⟨rfl, rfl, rfl, rfl, rfl⟩)
           | (refine decodeOK_remove_getBoth h ?_ _
              exact ⟨rfl, rfl, rfl, rfl, rfl⟩))

theorem decodeVFO_ok {s s' : CivState} {d : List Nat} {b : Bool} (h : Good s)
    (hd : s.decodeVFO d = some (s', b)) : DecodeOK s s' b := by
  unfold CivState.decodeVFO at hd
  cases d <;> try dsimp only at hd
  all_goals repeat' split at hd
  all_goals
    first
      | exact Option.noConfusion hd
      | (simp only [Option.some.injEq, Prod.mk.injEq] at hd
         obtain ⟨rfl, rfl⟩ := hd
         first
           | (refine decodeOK_same h ?_ _
              exact ⟨rfl, rfl, rfl, rfl, rfl⟩)
           | (refine decodeOK_remove h ?_ _
              exact ⟨rfl, rfl, rfl, rfl, rfl⟩)
           | (refine decodeOK_same h (sameCore_trans ?_ (sameCore_relocateBand _)) _
              exact ⟨rfl, rfl, rfl, rfl, rfl⟩)
           | (refine decodeOK_remove h (sameCore_trans ?_ (sameCore_relocateBand _)) _
              exact ⟨rfl, rfl, rfl, rfl, rfl⟩)
           | (refine decodeOK_remove_getBoth h ?_ _
              exact ⟨rfl, rfl, rfl, rfl, rfl⟩))

theorem decodeSplit_ok {s s' : CivState} {d : List Nat} {b : Bool} (h : Good s)
    (hd : s.decodeSplit d = some (s', b)) : DecodeOK s s' b := by
  unfold CivState.decodeSplit at hd
  cases d <;> try dsimp only at hd
  all_goals repeat' split at hd
  all_goals
    first
      | exact Option.noConfusion hd
      | (simp only [Option.some.injEq, Prod.mk.injEq] at hd
         obtain ⟨rfl, rfl⟩ := hd
         first
           | (refine decodeOK_same h ?_ _
              exact ⟨rfl, rfl, rfl, rfl, rfl⟩)
           | (refine decodeOK_remove h ?_ _
              exact ⟨rfl, rfl, rfl, rfl, rfl⟩)
           | (refine decodeOK_same h (sameCore_trans ?_ (sameCore_relocateBand _)) _
              exact ⟨rfl, rfl, rfl, rfl, rfl⟩)
           | (refine decodeOK_remove h (sameCore_trans ?_ (sameCore_relocateBand _)) _
              exact ⟨rfl, rfl, rfl, rfl, rfl⟩)
           | (refine decodeOK_remove_getBoth h ?_ _
              exact ⟨rfl, rfl, rfl, rfl, rfl⟩))

theorem decodeTuningStep_ok {s s' : CivState} {d : List Nat} {b : Bool} (h : Good s)
    (hd : s.decodeTuningStep d = some (s', b)) : DecodeOK s s' b := by
  unfold CivState.decodeTuningStep at hd
  cases d <;> try dsimp only at hd
  all_goals repeat' split at hd
  all_goals
    first
      | exact Option.noConfusion hd
      | (simp only [Option.some.injEq, Prod.mk.injEq] at hd
         obtain ⟨rfl, rfl⟩ := hd
         first
           | (refine decodeOK_same h ?_ _
              exact ⟨rfl, rfl, rfl, rfl, rfl⟩)
           | (refine decodeOK_remove h ?_ _
              exact ⟨rfl, rfl, rfl, rfl, rfl⟩)
           | (refine decodeOK_same h (sameCore_trans ?_ (sameCore_relocateBand _)) _
              exact ⟨rfl, rfl, rfl, rfl, rfl⟩)
           | (refine decodeOK_remove h (sameCore_trans ?_ (sameCore_relocateBand _)) _
              exact ⟨rfl, rfl, rfl, rfl, rfl⟩)
           | (refine decodeOK_remove_getBoth h ?_ _
              exact ⟨rfl, rfl, rfl, rfl, rfl⟩))

theorem decodeDataModeAndOVF_ok {s s' : CivState} {d : List Nat} {b : Bool} (h : Good s)
    (hd : s.decodeDataModeAndOVF d = some (s', b)) : DecodeOK s s' b := by
  unfold CivState.decodeDataModeAndOVF at hd
  cases d <;> try dsimp only at hd
  all_goals repeat' split at hd
  all_goals
    first
      | exact Option.noConfusion hd
      | (simp only [Option.some.injEq, Prod.mk.injEq] at hd
         obtain ⟨rfl, rfl⟩ := hd
         first
           | (refine decodeOK_same h ?_ _
              exact ⟨rfl, rfl, rfl, rfl, rfl⟩)
           | (refine decodeOK_remove h ?_ _
              exact ⟨rfl, rfl, rfl, rfl, rfl⟩)
           | (refine decodeOK_same h (sameCore_trans ?_ (sameCore_relocateBand _)) _
              exact ⟨rfl, rfl, rfl, rfl, rfl⟩)
           | (refine decodeOK_remove h (sameCore_trans ?_ (sameCore_relocateBand _)) _
              exact ⟨rfl, rfl, rfl, rfl, rfl⟩)
           | (refine decodeOK_remove_getBoth h ?_ _
              exact ⟨rfl, rfl, rfl, rfl, rfl⟩))

theorem decodePowerRFGainSQLNRPwr_ok {s s' : CivState} {d : List Nat} {b : Bool} (h : Good s)
    (hd : s.decodePowerRFGainSQLNRPwr d = some (s', b)) : DecodeOK s s' b := by
  unfold CivState.decodePowerRFGainSQLNRPwr at hd
  cases d <;> try dsimp only at hd
  all_goals repeat' split at hd
  all_goals
    first
      | exact Option.noConfusion hd
      | (simp only [Option.some.injEq, Prod.mk.injEq] at hd
         obtain ⟨rfl, rfl⟩ := hd
         first
           | (refine decodeOK_same h ?_ _
              exact ⟨rfl, rfl, rfl, rfl, rfl⟩)
           | (refine decodeOK_remove h ?_ _
              exact ⟨rfl, rfl, rfl, rfl, rfl⟩)
           | (refine decodeOK_same h (sameCore_trans ?_ (sameCore_relocateBand _)) _
              exact ⟨rfl, rfl, rfl, rfl, rfl⟩)
           | (refine decodeOK_remove h (sameCore_trans ?_ (sameCore_relocateBand _)) _
              exact ⟨rfl, rfl, rfl, rfl, rfl⟩)
           | (refine decodeOK_remove_getBoth h ?_ _
              exact ⟨rfl, rfl, rfl, rfl, rfl⟩))

theorem decodeVdSWRS_ok {s s' : CivState} {d : List Nat} {b : Bool} (h : Good s)
    (hd : s.decodeVdSWRS d = some (s', b)) : DecodeOK s s' b := by
  unfold CivState.decodeVdSWRS at hd
  cases d <;> try dsimp only at hd
  all_goals repeat' split at hd
  all_goals
    first
      | exact Option.noConfusion hd
      | (simp only [Option.some.injEq, Prod.mk.injEq] at hd
         obtain ⟨rfl, rfl⟩ := hd
         first
           | (refine decodeOK_same h ?_ _
              exact ⟨rfl, rfl, rfl, rfl, rfl⟩)
           | (refine decodeOK_remove h ?_ _
              exact ⟨rfl, rfl, rfl, rfl, rfl⟩)
           | (refine decodeOK_same h (sameCore_trans ?_ (sameCore_relocateBand _)) _
              exact ⟨rfl, rfl, rfl, rfl, rfl⟩)
           | (refine decodeOK_remove h (sameCore_trans ?_ (sameCore_relocateBand _)) _
              exact ⟨rfl, rfl, rfl, rfl, rfl⟩)
           | (refine decodeOK_remove_getBoth h ?_ _
              exact ⟨rfl, rfl, rfl, rfl, rfl⟩))

theorem decodePreampAGCNREnabled_ok {s s' : CivState} {d : List Nat} {b : Bool} (h : Good s)
    (hd : s.decodePreampAGCNREnabled d = some (s', b)) : DecodeOK s s' b := by
  unfold CivState.decodePreampAGCNREnabled at hd
  cases d <;> try dsimp only at hd
  all_goals repeat' split at hd
  all_goals
    first
      | exact Option.noConfusion hd
      | (simp only [Option.some.injEq, Prod.mk.injEq] at hd
         obtain ⟨rfl, rfl⟩ := hd
         first
           | (refine decodeOK_same h ?_ _
              exact ⟨rfl, rfl, rfl, rfl, rfl⟩)
           | (refine decodeOK_remove h ?_ _
              exact ⟨rfl, rfl, rfl, rfl, rfl⟩)
           | (refine decodeOK_same h (sameCore_trans ?_ (sameCore_relocateBand _)) _
              exact ⟨rfl, rfl, rfl, rfl, rfl⟩)
           | (refine decodeOK_remove h (sameCore_trans ?_ (sameCore_relocateBand _)) _
              exact ⟨rfl, rfl, rfl, rfl, rfl⟩)
           | (refine decodeOK_remove_getBoth h ?_ _
              exact ⟨rfl, rfl, rfl, rfl, rfl⟩))

theorem decodeVFOFreq_ok {s s' : CivState} {d : List Nat} {b : Bool} (h : Good s)
    (hd : s.decodeVFOFreq d = some (s', b)) : DecodeOK s s' b := by
  unfold CivState.decodeVFOFreq at hd
  try dsimp only at hd
  repeat' split at hd
  all_goals
    first
      | exact Option.noConfusion hd
      | (simp only [Option.some.injEq, Prod.mk.injEq] at hd
         obtain ⟨rfl, rfl⟩ := hd
         first
           | (refine decodeOK_same h ?_ _
              exact ⟨rfl, rfl, rfl, rfl, rfl⟩)
           | (refine decodeOK_remove h ?_ _
              exact ⟨rfl, rfl, rfl, rfl, rfl⟩)
           | (refine decodeOK_same h (sameCore_trans ?_ (sameCore_relocateBand _)) _
              exact ⟨rfl, rfl, rfl, rfl, rfl⟩)
           | (refine decodeOK_remove h (sameCore_trans ?_ (sameCore_relocateBand _)) _
              exact ⟨rfl, rfl, rfl, rfl, rfl⟩)
           | (refine decodeOK_remove_getBoth h ?_ _
              exact ⟨rfl, rfl, rfl, rfl, rfl⟩))

theorem decodeVFOMode_ok {s s' : CivState} {d : List Nat} {b : Bool} (h : Good s)
    (hd : s.decodeVFOMode d = some (s', b)) : DecodeOK s s' b := by
  unfold CivState.decodeVFOMode at hd
  try dsimp only at hd
  repeat' split at hd
  all_goals
    first
      | exact Option.noConfusion hd
      | (simp only [Option.some.injEq, Prod.mk.injEq] at hd
         obtain ⟨rfl, rfl⟩ := hd
         first
           | (refine decodeOK_same h ?_ _
              exact ⟨rfl, rfl, rfl, rfl, rfl⟩)
           | (refine decodeOK_remove h ?_ _
              exact ⟨rfl, rfl, rfl, rfl, rfl⟩)
           | (refine decodeOK_same h (sameCore_trans ?_ (sameCore_relocateBand _)) _
              exact ⟨rfl, rfl, rfl, rfl, rfl⟩)
           | (refine decodeOK_remove h (sameCore_trans ?_ (sameCore_relocateBand _)) _
              exact ⟨rfl, rfl, rfl, rfl, rfl⟩)
           | (refine decodeOK_remove_getBoth h ?_ _
              exact ⟨rfl, rfl, rfl, rfl, rfl⟩))


theorem tail_clause3 {s u s' : CivState} {b : Bool}
    (hb : b = true → s' = u) (hmem : ∀ x, x ∈ s.pendingCmds → x ∈ u.pendingCmds) :
    ∀ x : CmdSlot, x ∈ s.pendingCmds → x ∉ s'.pendingCmds → b = false := by
  intro x hx hx'
  cases b with
  | false => rfl
  | true =>
    rw [hb rfl] at hx'
    exact absurd (hmem x hx) hx'

theorem decodeTransmitStatus_ok {s s' : CivState} {d : List Nat} {b : Bool} (h : Good s)
    (hd : s.decodeTransmitStatus d = some (s', b)) : DecodeOK s s' b := by
  unfold CivState.decodeTransmitStatus at hd
  split at hd
  · simp only [Option.some.injEq, Prod.mk.injEq] at hd
    obtain ⟨rfl, rfl⟩ := hd
    exact decodeOK_same h (sameCore_refl s) _
  · dsimp only at hd
    split at hd
    · -- d[0] = 0: the PTT status branch
      split at hd
      · -- d[1] = 1: mirrored PTT becomes (or stays) true
        have hgt : Good ({ s with ptt := true } : CivState) := good_of_eq h rfl rfl rfl
        split at hd
        · simp only [Option.some.injEq, Prod.mk.injEq] at hd
          obtain ⟨rfl, rfl⟩ := hd
          refine ⟨good_removePendingCmd hgt _, ?_, fun _ _ _ => rfl⟩
          intro _ hp2
          rw [removePendingCmd_ptt] at hp2
          simp at hp2
        · obtain ⟨hg, hp, ha, hb⟩ := transmitStatusTail_spec hgt hd
          refine ⟨hg, ?_, tail_clause3 hb (fun x hx => hx)⟩
          intro _ hp2
          rw [hp] at hp2
          simp at hp2
      · split at hd
        · -- PTT released: timer stopped, getVd requested
          have hgt : Good (({ s with ptt := false, pttTimerArmed := false } : CivState).getVd) :=
            good_getVd (good_of_eq h rfl rfl rfl)
          split at hd
          · simp only [Option.some.injEq, Prod.mk.injEq] at hd
            obtain ⟨rfl, rfl⟩ := hd
            refine ⟨good_removePendingCmd hgt _, ?_, fun _ _ _ => rfl⟩
            intro _ _
            rw [removePendingCmd_pttTimerArmed]
            exact getVd_pttTimerArmed _
          · obtain ⟨hg, hp, ha, hb⟩ := transmitStatusTail_spec hgt hd
            refine ⟨hg, ?_, tail_clause3 hb (fun x hx => mem_getVd _ x hx)⟩
            intro _ _
            rw [ha]
            exact getVd_pttTimerArmed _
        · -- PTT already false: state untouched
          split at hd
          · simp only [Option.some.injEq, Prod.mk.injEq] at hd
            obtain ⟨rfl, rfl⟩ := hd
            exact decodeOK_remove h (sameCore_refl s) _
          · obtain ⟨hg, hp, ha, hb⟩ := transmitStatusTail_spec h hd
            exact ⟨hg, ptt_clause_of_eq hp, tail_clause3 hb (fun x hx => hx)⟩
    · split at hd
      · -- d[0] = 1: the tune status branch
        split at hd
        · -- d[1] = 2: tune starts
          have hc : SameCore s ({ s with tune := true } : CivState) := ⟨rfl, rfl, rfl, rfl, rfl⟩
          split at hd
          · simp only [Option.some.injEq, Prod.mk.injEq] at hd
            obtain ⟨rfl, rfl⟩ := hd
            exact decodeOK_remove h hc _
          · obtain ⟨hg, hp, ha, hb⟩ := transmitStatusTail_spec (good_of_sameCore h hc) hd
            exact ⟨hg, ptt_clause_of_eq hp, tail_clause3 hb (fun x hx => hx)⟩
        · split at hd
          · -- tune finished: tune timer stopped, getVd requested (PTT untouched)
            have hgt : Good (({ s with tune := false, tuneTimerArmed := false } : CivState).getVd) :=
              good_getVd (good_of_eq h rfl rfl rfl)
            split at hd
            · simp only [Option.some.injEq, Prod.mk.injEq] at hd
              obtain ⟨rfl, rfl⟩ := hd
              refine ⟨good_removePendingCmd hgt _, ?_, fun _ _ _ => rfl⟩
              exact ptt_clause_of_eq ((removePendingCmd_ptt _ _).trans (getVd_ptt _))
            · obtain ⟨hg, hp, ha, hb⟩ := transmitStatusTail_spec hgt hd
              refine ⟨hg, ptt_clause_of_eq (hp.trans (getVd_ptt _)),
                tail_clause3 hb (fun x hx => mem_getVd _ x hx)⟩
          · split at hd
            · simp only [Option.some.injEq, Prod.mk.injEq] at hd
              obtain ⟨rfl, rfl⟩ := hd
              exact decodeOK_remove h (sameCore_refl s) _
            · obtain ⟨hg, hp, ha, hb⟩ := transmitStatusTail_spec h hd
              exact ⟨hg, ptt_clause_of_eq hp, tail_clause3 hb (fun x hx => hx)⟩
      · -- other d[0]: straight to the tail
        obtain ⟨hg, hp, ha, hb⟩ := transmitStatusTail_spec h hd
        exact ⟨hg, ptt_clause_of_eq hp, tail_clause3 hb (fun x hx => hx)⟩

theorem decode_ok {s s' : CivState} {d : List Nat} {b : Bool} (h : Good s)
    (hd : s.decode d = some (s', b)) : DecodeOK s s' b := by
  unfold CivState.decode at hd
  by_cases hcond : (d.length < 6 ∨ d.getD 0 0 ≠ 0xfe ∨ d.getD 1 0 ≠ 0xfe ∨
      d.getD (d.length - 1) 0 ≠ 0xfd)
  · rw [if_pos hcond] at hd
    simp only [Option.some.injEq, Prod.mk.injEq] at hd
    obtain ⟨rfl, rfl⟩ := hd
    exact decodeOK_same h (sameCore_refl s) _
  · rw [if_neg hcond] at hd
    dsimp only at hd
    by_cases hc0 : d.getD 4 0 = 0x00
    · rw [if_pos hc0] at hd
      exact decodeFreq_ok h hd
    rw [if_neg hc0] at hd
    by_cases hc1 : d.getD 4 0 = 0x01
    · rw [if_pos hc1] at hd
      exact decodeMode_ok h hd
    rw [if_neg hc1] at hd
    by_cases hc2 : d.getD 4 0 = 0x02
    · rw [if_pos hc2] at hd
      simp only [Option.some.injEq, Prod.mk.injEq] at hd
      obtain ⟨rfl, rfl⟩ := hd
      exact decodeOK_same h (sameCore_refl s) _
    rw [if_neg hc2] at hd
    by_cases hc3 : d.getD 4 0 = 0x03
    · rw [if_pos hc3] at hd
      exact decodeFreq_ok h hd
    rw [if_neg hc3] at hd
    by_cases hc4 : d.getD 4 0 = 0x04
    · rw [if_pos hc4] at hd
      exact decodeMode_ok h hd
    rw [if_neg hc4] at hd
    by_cases hc5 : d.getD 4 0 = 0x05
    · rw [if_pos hc5] at hd
      exact decodeFreq_ok h hd
    rw [if_neg hc5] at hd
    by_cases hc6 : d.getD 4 0 = 0x06
    · rw [if_pos hc6] at hd
      exact decodeMode_ok h hd
    rw [if_neg hc6] at hd
    by_cases hc7 : d.getD 4 0 = 0x07
    · rw [if_pos hc7] at hd
      exact decodeVFO_ok h hd
    rw [if_neg hc7] at hd
    by_cases hc8 : d.getD 4 0 = 0x0f
    · rw [if_pos hc8] at hd
      exact decodeSplit_ok h hd
    rw [if_neg hc8] at hd
    by_cases hc9 : d.getD 4 0 = 0x10
    · rw [if_pos hc9] at hd
      exact decodeTuningStep_ok h hd
    rw [if_neg hc9] at hd
    by_cases hc10 : d.getD 4 0 = 0x1a
    · rw [if_pos hc10] at hd
      exact decodeDataModeAndOVF_ok h hd
    rw [if_neg hc10] at hd
    by_cases hc11 : d.getD 4 0 = 0x14
    · rw [if_pos hc11] at hd
      exact decodePowerRFGainSQLNRPwr_ok h hd
    rw [if_neg hc11] at hd
    by_cases hc12 : d.getD 4 0 = 0x1c
    · rw [if_pos hc12] at hd
      exact decodeTransmitStatus_ok h hd
    rw [if_neg hc12] at hd
    by_cases hc13 : d.getD 4 0 = 0x15
    · rw [if_pos hc13] at hd
      exact decodeVdSWRS_ok h hd
    rw [if_neg hc13] at hd
    by_cases hc14 : d.getD 4 0 = 0x16
    · rw [if_pos hc14] at hd
      exact decodePreampAGCNREnabled_ok h hd
    rw [if_neg hc14] at hd
    by_cases hc15 : d.getD 4 0 = 0x25
    · rw [if_pos hc15] at hd
      exact decodeVFOFreq_ok h hd
    rw [if_neg hc15] at hd
    by_cases hc16 : d.getD 4 0 = 0x26
    · rw [if_pos hc16] at hd
      exact decodeVFOMode_ok h hd
    rw [if_neg hc16] at hd
    simp only [Option.some.injEq, Prod.mk.injEq] at hd
    obtain ⟨rfl, rfl⟩ := hd
    exact decodeOK_same h (sameCore_refl s) _

/-! ## The public operations preserve the invariant and the mirrored PTT -/

theorem run_good {s : CivState} (op : PublicOp) (h : Good s) : Good (op.run s) := by
  cases op <;>
    simp only [PublicOp.run, CivState.setPwr, CivState.setRFGain, CivState.setSQL, CivState.setNR,
      CivState.toggleNR, CivState.setMainVFOFreq, CivState.setSubVFOFreq,
      CivState.setOperatingModeAndFilter, CivState.setSubVFOMode, CivState.setPTT,
      CivState.setTune, CivState.setDataMode, CivState.setTuningStep, CivState.setVFO,
      CivState.setSplit, CivState.getFreq, CivState.getPwr, CivState.getTransmitStatus,
      CivState.getPreamp, CivState.getAGC, CivState.getVd, CivState.getS, CivState.getOVF,
      CivState.getSWR, CivState.getTuningStep, CivState.getRFGain, CivState.getSQL,
      CivState.getNR, CivState.getNREnabled, CivState.getSplit, CivState.getBothVFOFreq,
      CivState.getBothVFOMode]
  all_goals repeat' split
  all_goals
    first
      | exact h
      | exact good_initSend h _ _
      | exact good_initSend (good_initSend h _ _) _ _
      | exact good_initSend (good_initSend (good_initSend h _ _) _ _) _ _
      | (refine good_initSend ?_ _ _
         exact good_of_eq h rfl rfl rfl)


theorem run_ptt (op : PublicOp) (s : CivState) : (op.run s).ptt = s.ptt := by
  cases op <;>
    simp only [PublicOp.run, CivState.setPwr, CivState.setRFGain, CivState.setSQL, CivState.setNR,
      CivState.toggleNR, CivState.setMainVFOFreq, CivState.setSubVFOFreq,
      CivState.setOperatingModeAndFilter, CivState.setSubVFOMode, CivState.setPTT,
      CivState.setTune, CivState.setDataMode, CivState.setTuningStep, CivState.setVFO,
      CivState.setSplit, CivState.getFreq, CivState.getPwr, CivState.getTransmitStatus,
      CivState.getPreamp, CivState.getAGC, CivState.getVd, CivState.getS, CivState.getOVF,
      CivState.getSWR, CivState.getTuningStep, CivState.getRFGain, CivState.getSQL,
      CivState.getNR, CivState.getNREnabled, CivState.getSplit, CivState.getBothVFOFreq,
      CivState.getBothVFOMode]
  all_goals repeat' split
  all_goals repeat rw [initSend_ptt]
  all_goals rfl

theorem setPTT_mirror_ptt (s : CivState) (e : Bool) : (s.setPTT e).ptt = s.ptt := by
  unfold CivState.setPTT
  dsimp only
  split <;> rw [initSend_ptt]

theorem setTune_mirror_ptt (s : CivState) (e : Bool) : (s.setTune e).ptt = s.ptt := by
  unfold CivState.setTune
  split
  · rfl
  · dsimp only
    split <;> rw [initSend_ptt]

/-! ## Step and reachability level invariants -/

theorem step_good {s s' : CivState} (h : Good s) (hs : Step s s') : Good s' := by
  cases hs with
  | publicOp op => exact run_good op h
  | decodePkt s2 d b hd => exact (decode_ok h hd).1
  | pttTimerFire hf =>
    unfold CivState.setPTT
    dsimp only
    split <;>
      (refine good_initSend ?_ _ _
       exact good_of_eq h rfl rfl rfl)
  | tuneTimerFire hf =>
    unfold CivState.setTune
    split
    · exact good_of_eq h rfl rfl rfl
    · dsimp only
      split <;>
        (refine good_initSend ?_ _ _
         exact good_of_eq h rfl rfl rfl)
  | retrySend x hx => exact good_sendCmd h x

theorem step_ptt_timer {s s' : CivState} (h : Good s) (hs : Step s s') :
    s.ptt = true → s'.ptt = false → s'.pttTimerArmed = false := by
  cases hs with
  | publicOp op =>
    intro h1 h2
    rw [run_ptt, h1] at h2
    cases h2
  | decodePkt s2 d b hd => exact (decode_ok h hd).2.1
  | pttTimerFire hf =>
    intro h1 h2
    rw [setPTT_mirror_ptt] at h2
    dsimp only at h2
    rw [h1] at h2
    cases h2
  | tuneTimerFire hf =>
    intro h1 h2
    rw [setTune_mirror_ptt] at h2
    dsimp only at h2
    rw [h1] at h2
    cases h2
  | retrySend x hx =>
    intro h1 h2
    rw [sendCmd_ptt, h1] at h2
    cases h2

theorem good_initialState : Good initialState := by
  refine ⟨fun x => ?_, ?_, rfl⟩
  · simp [initialState]
  · simp [initialState]

theorem reachable_good {s : CivState} (h : Reachable s) : Good s := by
  induction h with
  | refl => exact good_initialState
  | tail _ hstep ih => exact step_good ih hstep

/-! ## Helper lemmas for the forwarding/clearing characterization -/

theorem pending_eq_false {a : Bool} (h : ¬(a = true)) : a = false := by
  cases a
  · rfl
  · exact absurd rfl h

theorem removePendingCmd_pending_self (s : CivState) (x : CmdSlot) :
    (s.removePendingCmd x).pending x = false := by
  unfold CivState.removePendingCmd
  dsimp only
  split <;> simp

theorem removePendingCmd_not_mem_self {s : CivState} (hnd : s.pendingCmds.Nodup) (x : CmdSlot) :
    x ∉ (s.removePendingCmd x).pendingCmds := by
  unfold CivState.removePendingCmd CivState.getPendingCmdIndex
  dsimp only
  cases hfi : firstIdxWhere (fun y => decide (y = x)) s.pendingCmds with
  | none =>
    dsimp only
    rw [firstIdxWhere_eq_none] at hfi
    intro hx
    simpa using hfi x hx
  | some i =>
    dsimp only
    obtain ⟨hi, hp⟩ := firstIdxWhere_eq_some hfi
    have hgx : s.pendingCmds[i] = x := of_decide_eq_true hp
    intro hx
    rw [mem_swapRemoveAt hi hnd] at hx
    exact hx.2 hgx.symm

theorem clearedSlot_removePendingCmd {t : CivState} (hnd : t.pendingCmds.Nodup) (x : CmdSlot) :
    ClearedSlot (t.removePendingCmd x) false x := by
  unfold ClearedSlot
  exact ⟨rfl, removePendingCmd_pending_self t x, removePendingCmd_not_mem_self hnd x⟩

theorem skippedSlot_of {t : CivState} {x : CmdSlot} (hp : t.pending x = true)
    (hm : x ∈ t.pendingCmds) : SkippedSlot t false x := by
  unfold SkippedSlot
  exact ⟨rfl, hp, hm⟩

theorem priorityClears_nil (s s' : CivState) : PriorityClears s s' true [] := by
  simp only [PriorityClears]

theorem priorityClears_head {s s' : CivState} {b : Bool} {x : CmdSlot} (xs : List CmdSlot)
    (hp : s.pending x = true) (h : ClearedSlot s' b x) : PriorityClears s s' b (x :: xs) := by
  simp only [PriorityClears]
  exact ⟨fun _ => h, fun hn => absurd hp (by rw [hn]; decide)⟩

theorem priorityClears_tail {s s' : CivState} {b : Bool} {x : CmdSlot} {xs : List CmdSlot}
    (hn : s.pending x = false) (h : PriorityClears s s' b xs) :
    PriorityClears s s' b (x :: xs) := by
  simp only [PriorityClears]
  exact ⟨fun hp => absurd hp (by rw [hn]; decide), fun _ => h⟩

theorem shortResult1 (s : CivState) (x1 : CmdSlot) :
    ShortResult s s (!s.pending x1) [x1] := by
  unfold ShortResult
  refine ⟨rfl, ?_⟩
  cases h1 : s.pending x1 <;> simp [h1]

theorem shortResult2 (s : CivState) (x1 x2 : CmdSlot) :
    ShortResult s s (!s.pending x1 && !s.pending x2) [x1, x2] := by
  unfold ShortResult
  refine ⟨rfl, ?_⟩
  cases h1 : s.pending x1 <;> cases h2 : s.pending x2 <;> simp [h1, h2]

theorem shortResult3 (s : CivState) (x1 x2 x3 : CmdSlot) :
    ShortResult s s (!s.pending x1 && !s.pending x2 && !s.pending x3) [x1, x2, x3] := by
  unfold ShortResult
  refine ⟨rfl, ?_⟩
  cases h1 : s.pending x1 <;> cases h2 : s.pending x2 <;> cases h3 : s.pending x3 <;>
    simp [h1, h2, h3]

theorem initSend_pending_ne {s : CivState} {x y : CmdSlot} (hxy : y ≠ x) (d : List Nat) :
    ((s.initCmd x d).sendCmd x).pending y = s.pending y := by
  unfold CivState.sendCmd CivState.initCmd
  dsimp only
  split
  · dsimp only
    rw [if_neg hxy]
  · dsimp only
    split <;> (dsimp only; rw [if_neg hxy, if_neg hxy])

theorem getVd_pending_ne {s : CivState} {y : CmdSlot} (hy : y ≠ CmdSlot.getVd) :
    s.getVd.pending y = s.pending y := by
  unfold CivState.getVd
  exact initSend_pending_ne hy _

/-! ## Dispatch lemmas: `decode` on a well-formed frame reduces to the
decoder selected by the command byte -/

theorem decode_eq_decodeFreq {s : CivState} {d : List Nat} (hwf : WellFormedPkt d)
    (hc : pktCmd d = 0x00 ∨ pktCmd d = 0x03 ∨ pktCmd d = 0x05) :
    s.decode d = s.decodeFreq (pktPayload d) := by
  unfold WellFormedPkt at hwf
  unfold pktCmd at hc
  unfold CivState.decode pktPayload
  rw [if_neg hwf]
  dsimp only
  rcases hc with hc | hc | hc
  · rw [if_pos hc]
  · rw [if_neg (by rw [hc]; decide), if_neg (by rw [hc]; decide), if_neg (by rw [hc]; decide),
      if_pos hc]
  · rw [if_neg (by rw [hc]; decide), if_neg (by rw [hc]; decide), if_neg (by rw [hc]; decide),
      if_neg (by rw [hc]; decide), if_neg (by rw [hc]; decide), if_pos hc]

theorem decode_eq_decodeMode {s : CivState} {d : List Nat} (hwf : WellFormedPkt d)
    (hc : pktCmd d = 0x01 ∨ pktCmd d = 0x04 ∨ pktCmd d = 0x06) :
    s.decode d = s.decodeMode (pktPayload d) := by
  unfold WellFormedPkt at hwf
  unfold pktCmd at hc
  unfold CivState.decode pktPayload
  rw [if_neg hwf]
  dsimp only
  rcases hc with hc | hc | hc
  · rw [if_neg (by rw [hc]; decide), if_pos hc]
  · rw [if_neg (by rw [hc]; decide), if_neg (by rw [hc]; decide), if_neg (by rw [hc]; decide),
      if_neg (by rw [hc]; decide), if_pos hc]
  · rw [if_neg (by rw [hc]; decide), if_neg (by rw [hc]; decide), if_neg (by rw [hc]; decide),
      if_neg (by rw [hc]; decide), if_neg (by rw [hc]; decide), if_neg (by rw [hc]; decide),
      if_pos hc]

theorem decode_eq_false02 {s : CivState} {d : List Nat} (hwf : WellFormedPkt d)
    (hc : pktCmd d = 0x02) : s.decode d = some (s, false) := by
  unfold WellFormedPkt at hwf
  unfold pktCmd at hc
  unfold CivState.decode
  rw [if_neg hwf]
  dsimp only
  rw [if_neg (by rw [hc]; decide), if_neg (by rw [hc]; decide), if_pos hc]

theorem decode_eq_decodeVFO {s : CivState} {d : List Nat} (hwf : WellFormedPkt d)
    (hc : pktCmd d = 0x07) : s.decode d = s.decodeVFO (pktPayload d) := by
  unfold WellFormedPkt at hwf
  unfold pktCmd at hc
  unfold CivState.decode pktPayload
  rw [if_neg hwf]
  dsimp only
  rw [if_neg (by rw [hc]; decide), if_neg (by rw [hc]; decide), if_neg (by rw [hc]; decide),
    if_neg (by rw [hc]; decide), if_neg (by rw [hc]; decide), if_neg (by rw [hc]; decide),
    if_neg (by rw [hc]; decide), if_pos hc]

theorem decode_eq_decodeSplit {s : CivState} {d : List Nat} (hwf : WellFormedPkt d)
    (hc : pktCmd d = 0x0f) : s.decode d = s.decodeSplit (pktPayload d) := by
  unfold WellFormedPkt at hwf
  unfold pktCmd at hc
  unfold CivState.decode pktPayload
  rw [if_neg hwf]
  dsimp only
  rw [if_neg (by rw [hc]; decide), if_neg (by rw [hc]; decide), if_neg (by rw [hc]; decide),
    if_neg (by rw [hc]; decide), if_neg (by rw [hc]; decide), if_neg (by rw [hc]; decide),
    if_neg (by rw [hc]; decide), if_neg (by rw [hc]; decide), if_pos hc]

theorem decode_eq_decodeTuningStep {s : CivState} {d : List Nat} (hwf : WellFormedPkt d)
    (hc : pktCmd d = 0x10) : s.decode d = s.decodeTuningStep (pktPayload d) := by
  unfold WellFormedPkt at hwf
  unfold pktCmd at hc
  unfold CivState.decode pktPayload
  rw [if_neg hwf]
  dsimp only
  rw [if_neg (by rw [hc]; decide), if_neg (by rw [hc]; decide), if_neg (by rw [hc]; decide),
    if_neg (by rw [hc]; decide), if_neg (by rw [hc]; decide), if_neg (by rw [hc]; decide),
    if_neg (by rw [hc]; decide), if_neg (by rw [hc]; decide), if_neg (by rw [hc]; decide),
    if_pos hc]

theorem decode_eq_decodeDataModeAndOVF {s : CivState} {d : List Nat} (hwf : WellFormedPkt d)
    (hc : pktCmd d = 0x1a) : s.decode d = s.decodeDataModeAndOVF (pktPayload d) := by
  unfold WellFormedPkt at hwf
  unfold pktCmd at hc
  unfold CivState.decode pktPayload
  rw [if_neg hwf]
  dsimp only
  rw [if_neg (by rw [hc]; decide), if_neg (by rw [hc]; decide), if_neg (by rw [hc]; decide),
    if_neg (by rw [hc]; decide), if_neg (by rw [hc]; decide), if_neg (by rw [hc]; decide),
    if_neg (by rw [hc]; decide), if_neg (by rw [hc]; decide), if_neg (by rw [hc]; decide),
    if_neg (by rw [hc]; decide), if_pos hc]

theorem decode_eq_decodePowerRFGainSQLNRPwr {s : CivState} {d : List Nat}
    (hwf : WellFormedPkt d) (hc : pktCmd d = 0x14) :
    s.decode d = s.decodePowerRFGainSQLNRPwr (pktPayload d) := by
  unfold WellFormedPkt at hwf
  unfold pktCmd at hc
  unfold CivState.decode pktPayload
  rw [if_neg hwf]
  dsimp only
  rw [if_neg (by rw [hc]; decide), if_neg (by rw [hc]; decide), if_neg (by rw [hc]; decide),
    if_neg (by rw [hc]; decide), if_neg (by rw [hc]; decide), if_neg (by rw [hc]; decide),
    if_neg (by rw [hc]; decide), if_neg (by rw [hc]; decide), if_neg (by rw [hc]; decide),
    if_neg (by rw [hc]; decide), if_neg (by rw [hc]; decide), if_pos hc]

theorem decode_eq_decodeTransmitStatus {s : CivState} {d : List Nat} (hwf : WellFormedPkt d)
    (hc : pktCmd d = 0x1c) : s.decode d = s.decodeTransmitStatus (pktPayload d) := by
  unfold WellFormedPkt at hwf
  unfold pktCmd at hc
  unfold CivState.decode pktPayload
  rw [if_neg hwf]
  dsimp only
  rw [if_neg (by rw [hc]; decide), if_neg (by rw [hc]; decide), if_neg (by rw [hc]; decide),
    if_neg (by rw [hc]; decide), if_neg (by rw [hc]; decide), if_neg (by rw [hc]; decide),
    if_neg (by rw [hc]; decide), if_neg (by rw [hc]; decide), if_neg (by rw [hc]; decide),
    if_neg (by rw [hc]; decide), if_neg (by rw [hc]; decide), if_neg (by rw [hc]; decide),
    if_pos hc]

theorem decode_eq_decodeVdSWRS {s : CivState} {d : List Nat} (hwf : WellFormedPkt d)
    (hc : pktCmd d = 0x15) : s.decode d = s.decodeVdSWRS (pktPayload d) := by
  unfold WellFormedPkt at hwf
  unfold pktCmd at hc
  unfold CivState.decode pktPayload
  rw [if_neg hwf]
  dsimp only
  rw [if_neg (by rw [hc]; decide), if_neg (by rw [hc]; decide), if_neg (by rw [hc]; decide),
    if_neg (by rw [hc]; decide), if_neg (by rw [hc]; decide), if_neg (by rw [hc]; decide),
    if_neg (by rw [hc]; decide), if_neg (by rw [hc]; decide), if_neg (by rw [hc]; decide),
    if_neg (by rw [hc]; decide), if_neg (by rw [hc]; decide), if_neg (by rw [hc]; decide),
    if_neg (by rw [hc]; decide), if_pos hc]

theorem decode_eq_decodePreampAGCNREnabled {s : CivState} {d : List Nat}
    (hwf : WellFormedPkt d) (hc : pktCmd d = 0x16) :
    s.decode d = s.decodePreampAGCNREnabled (pktPayload d) := by
  unfold WellFormedPkt at hwf
  unfold pktCmd at hc
  unfold CivState.decode pktPayload
  rw [if_neg hwf]
  dsimp only
  rw [if_neg (by rw [hc]; decide), if_neg (by rw [hc]; decide), if_neg (by rw [hc]; decide),
    if_neg (by rw [hc]; decide), if_neg (by rw [hc]; decide), if_neg (by rw [hc]; decide),
    if_neg (by rw [hc]; decide), if_neg (by rw [hc]; decide), if_neg (by rw [hc]; decide),
    if_neg (by rw [hc]; decide), if_neg (by rw [hc]; decide), if_neg (by rw [hc]; decide),
    if_neg (by rw [hc]; decide), if_neg (by rw [hc]; decide), if_pos hc]

theorem decode_eq_decodeVFOFreq {s : CivState} {d : List Nat} (hwf : WellFormedPkt d)
    (hc : pktCmd d = 0x25) : s.decode d = s.decodeVFOFreq (pktPayload d) := by
  unfold WellFormedPkt at hwf
  unfold pktCmd at hc
  unfold CivState.decode pktPayload
  rw [if_neg hwf]
  dsimp only
  rw [if_neg (by rw [hc]; decide), if_neg (by rw [hc]; decide), if_neg (by rw [hc]; decide),
    if_neg (by rw [hc]; decide), if_neg (by rw [hc]; decide), if_neg (by rw [hc]; decide),
    if_neg (by rw [hc]; decide), if_neg (by rw [hc]; decide), if_neg (by rw [hc]; decide),
    if_neg (by rw [hc]; decide), if_neg (by rw [hc]; decide), if_neg (by rw [hc]; decide),
    if_neg (by rw [hc]; decide), if_neg (by rw [hc]; decide), if_neg (by rw [hc]; decide),
    if_pos hc]

theorem decode_eq_decodeVFOMode {s : CivState} {d : List Nat} (hwf : WellFormedPkt d)
    (hc : pktCmd d = 0x26) : s.decode d = s.decodeVFOMode (pktPayload d) := by
  unfold WellFormedPkt at hwf
  unfold pktCmd at hc
  unfold CivState.decode pktPayload
  rw [if_neg hwf]
  dsimp only
  rw [if_neg (by rw [hc]; decide), if_neg (by rw [hc]; decide), if_neg (by rw [hc]; decide),
    if_neg (by rw [hc]; decide), if_neg (by rw [hc]; decide), if_neg (by rw [hc]; decide),
    if_neg (by rw [hc]; decide), if_neg (by rw [hc]; decide), if_neg (by rw [hc]; decide),
    if_neg (by rw [hc]; decide), if_neg (by rw [hc]; decide), if_neg (by rw [hc]; decide),
    if_neg (by rw [hc]; decide), if_neg (by rw [hc]; decide), if_neg (by rw [hc]; decide),
    if_neg (by rw [hc]; decide), if_pos hc]

theorem decode_eq_true_unknown {s : CivState} {d : List Nat} (hwf : WellFormedPkt d)
    (hc : pktCmd d ∉ knownCmds) : s.decode d = some (s, true) := by
  unfold WellFormedPkt at hwf
  have hne : ∀ v, v ∈ knownCmds → d.getD 4 0 ≠ v := by
    intro v hv he
    exact hc (by unfold pktCmd; rw [he]; exact hv)
  unfold CivState.decode
  rw [if_neg hwf]
  dsimp only
  rw [if_neg (hne 0x00 (by decide)), if_neg (hne 0x01 (by decide)), if_neg (hne 0x02 (by decide)),
    if_neg (hne 0x03 (by decide)), if_neg (hne 0x04 (by decide)), if_neg (hne 0x05 (by decide)),
    if_neg (hne 0x06 (by decide)), if_neg (hne 0x07 (by decide)), if_neg (hne 0x0f (by decide)),
    if_neg (hne 0x10 (by decide)), if_neg (hne 0x1a (by decide)), if_neg (hne 0x14 (by decide)),
    if_neg (hne 0x1c (by decide)), if_neg (hne 0x15 (by decide)), if_neg (hne 0x16 (by decide)),
    if_neg (hne 0x25 (by decide)), if_neg (hne 0x26 (by decide))]

/-! ## Per-decoder forwarding/clearing characterizations -/

theorem decodeFreq_char {s s' : CivState} {p : List Nat} {b : Bool} (hg : Good s)
    (hd : s.decodeFreq p = some (s', b)) :
    (2 ≤ p.length → PriorityClears s s' b [CmdSlot.getFreq, CmdSlot.setMainVFOFreq]) ∧
    (p.length < 2 → ShortResult s s' b [CmdSlot.getFreq, CmdSlot.setMainVFOFreq]) := by
  unfold CivState.decodeFreq at hd
  by_cases hlen : p.length < 2
  · rw [if_pos hlen] at hd
    simp only [Option.some.injEq, Prod.mk.injEq] at hd
    obtain ⟨rfl, rfl⟩ := hd
    exact ⟨fun h2 => absurd hlen (by omega), fun _ => shortResult2 s _ _⟩
  · rw [if_neg hlen] at hd
    dsimp only at hd
    rw [(sameCore_relocateBand _).2.1] at hd
    dsimp only at hd
    have hG : Good (({ s with freq := decodeFreqData p } : CivState).relocateBand) := by
      refine good_of_sameCore hg (sameCore_trans ?_ (sameCore_relocateBand _))
      exact ⟨rfl, rfl, rfl, rfl, rfl⟩
    refine ⟨fun _ => ?_, fun hcon => absurd hcon hlen⟩
    by_cases hp1 : s.pending CmdSlot.getFreq = true
    · rw [if_pos hp1] at hd
      simp only [Option.some.injEq, Prod.mk.injEq] at hd
      obtain ⟨rfl, rfl⟩ := hd
      exact priorityClears_head _ hp1 (clearedSlot_removePendingCmd hG.2.1 _)
    · have hn1 := pending_eq_false hp1
      rw [if_neg hp1] at hd
      by_cases hp2 : s.pending CmdSlot.setMainVFOFreq = true
      · rw [if_pos hp2] at hd
        simp only [Option.some.injEq, Prod.mk.injEq] at hd
        obtain ⟨rfl, rfl⟩ := hd
        exact priorityClears_tail hn1
          (priorityClears_head _ hp2 (clearedSlot_removePendingCmd hG.2.1 _))
      · have hn2 := pending_eq_false hp2
        rw [if_neg hp2] at hd
        simp only [Option.some.injEq, Prod.mk.injEq] at hd
        obtain ⟨rfl, rfl⟩ := hd
        exact priorityClears_tail hn1 (priorityClears_tail hn2 (priorityClears_nil _ _))

theorem decodeMode_char {s s' : CivState} {p : List Nat} {b : Bool} (hg : Good s)
    (hd : s.decodeMode p = some (s', b)) :
    (1 ≤ p.length → PriorityClears s s' b [CmdSlot.setMode]) ∧
    (p.length < 1 → ShortResult s s' b [CmdSlot.setMode]) := by
  unfold CivState.decodeMode at hd
  cases p with
  | nil =>
    dsimp only at hd
    simp only [Option.some.injEq, Prod.mk.injEq] at hd
    obtain ⟨rfl, rfl⟩ := hd
    exact ⟨fun h1 => absurd h1 (by decide), fun _ => shortResult1 s _⟩
  | cons d0 rest =>
    dsimp only at hd
    refine ⟨fun _ => ?_, fun hcon => absurd hcon (by simp only [List.length_cons]; omega)⟩
    by_cases hp1 : s.pending CmdSlot.setMode = true
    · rw [if_pos hp1] at hd
      repeat' split at hd
      all_goals first
        | exact Option.noConfusion hd
        | (simp only [Option.some.injEq, Prod.mk.injEq] at hd
           obtain ⟨rfl, rfl⟩ := hd
           refine priorityClears_head _ hp1 (clearedSlot_removePendingCmd ?_ _)
           exact (good_of_eq hg rfl rfl rfl).2.1)
    · have hn1 := pending_eq_false hp1
      rw [if_neg hp1] at hd
      repeat' split at hd
      all_goals first
        | exact Option.noConfusion hd
        | (simp only [Option.some.injEq, Prod.mk.injEq] at hd
           obtain ⟨rfl, rfl⟩ := hd
           exact priorityClears_tail hn1 (priorityClears_nil _ _))

theorem decodeVFO_char {s s' : CivState} {p : List Nat} {b : Bool} (hg : Good s)
    (hd : s.decodeVFO p = some (s', b)) :
    (1 ≤ p.length → PriorityClears s s' b [CmdSlot.setVFO]) ∧
    (p.length < 1 → ShortResult s s' b [CmdSlot.setVFO]) := by
  unfold CivState.decodeVFO at hd
  cases p with
  | nil =>
    dsimp only at hd
    simp only [Option.some.injEq, Prod.mk.injEq] at hd
    obtain ⟨rfl, rfl⟩ := hd
    exact ⟨fun h1 => absurd h1 (by decide), fun _ => shortResult1 s _⟩
  | cons d0 rest =>
    dsimp only at hd
    refine ⟨fun _ => ?_, fun hcon => absurd hcon (by simp only [List.length_cons]; omega)⟩
    by_cases hp1 : s.pending CmdSlot.setVFO = true
    · rw [if_pos hp1] at hd
      simp only [Option.some.injEq, Prod.mk.injEq] at hd
      obtain ⟨rfl, rfl⟩ := hd
      have hX : Good ({ s with vfoBActive := decide (d0 = 1) } : CivState) :=
        good_of_eq hg rfl rfl rfl
      refine priorityClears_head _ hp1 (clearedSlot_removePendingCmd ?_ _)
      exact (good_getBothVFOFreq hX).2.1
    · have hn1 := pending_eq_false hp1
      rw [if_neg hp1] at hd
      simp only [Option.some.injEq, Prod.mk.injEq] at hd
      obtain ⟨rfl, rfl⟩ := hd
      exact priorityClears_tail hn1 (priorityClears_nil _ _)

theorem decodeSplit_char {s s' : CivState} {p : List Nat} {b : Bool} (hg : Good s)
    (hd : s.decodeSplit p = some (s', b)) :
    (1 ≤ p.length → PriorityClears s s' b [CmdSlot.getSplit, CmdSlot.setSplit]) ∧
    (p.length < 1 → ShortResult s s' b [CmdSlot.getSplit, CmdSlot.setSplit]) := by
  unfold CivState.decodeSplit at hd
  cases p with
  | nil =>
    dsimp only at hd
    simp only [Option.some.injEq, Prod.mk.injEq] at hd
    obtain ⟨rfl, rfl⟩ := hd
    exact ⟨fun h1 => absurd h1 (by decide), fun _ => shortResult2 s _ _⟩
  | cons d0 rest =>
    dsimp only at hd
    refine ⟨fun _ => ?_, fun hcon => absurd hcon (by simp only [List.length_cons]; omega)⟩
    by_cases hp1 : s.pending CmdSlot.getSplit = true
    · rw [if_pos hp1] at hd
      simp only [Option.some.injEq, Prod.mk.injEq] at hd
      obtain ⟨rfl, rfl⟩ := hd
      refine priorityClears_head _ hp1 (clearedSlot_removePendingCmd ?_ _)
      exact (good_of_eq hg rfl rfl rfl).2.1
    · have hn1 := pending_eq_false hp1
      rw [if_neg hp1] at hd
      by_cases hp2 : s.pending CmdSlot.setSplit = true
      · rw [if_pos hp2] at hd
        simp only [Option.some.injEq, Prod.mk.injEq] at hd
        obtain ⟨rfl, rfl⟩ := hd
        refine priorityClears_tail hn1
          (priorityClears_head _ hp2 (clearedSlot_removePendingCmd ?_ _))
        exact (good_of_eq hg rfl rfl rfl).2.1
      · have hn2 := pending_eq_false hp2
        rw [if_neg hp2] at hd
        simp only [Option.some.injEq, Prod.mk.injEq] at hd
        obtain ⟨rfl, rfl⟩ := hd
        exact priorityClears_tail hn1 (priorityClears_tail hn2 (priorityClears_nil _ _))

theorem decodeTuningStep_char {s s' : CivState} {p : List Nat} {b : Bool} (hg : Good s)
    (hd : s.decodeTuningStep p = some (s', b)) :
    (1 ≤ p.length → PriorityClears s s' b [CmdSlot.getTuningStep, CmdSlot.setTuningStep]) ∧
    (p.length < 1 → ShortResult s s' b [CmdSlot.getTuningStep, CmdSlot.setTuningStep]) := by
  unfold CivState.decodeTuningStep at hd
  cases p with
  | nil =>
    dsimp only at hd
    simp only [Option.some.injEq, Prod.mk.injEq] at hd
    obtain ⟨rfl, rfl⟩ := hd
    exact ⟨fun h1 => absurd h1 (by decide), fun _ => shortResult2 s _ _⟩
  | cons d0 rest =>
    dsimp only at hd
    refine ⟨fun _ => ?_, fun hcon => absurd hcon (by simp only [List.length_cons]; omega)⟩
    by_cases hp1 : s.pending CmdSlot.getTuningStep = true
    · rw [if_pos hp1] at hd
      simp only [Option.some.injEq, Prod.mk.injEq] at hd
      obtain ⟨rfl, rfl⟩ := hd
      refine priorityClears_head _ hp1 (clearedSlot_removePendingCmd ?_ _)
      exact (good_of_eq hg rfl rfl rfl).2.1
    · have hn1 := pending_eq_false hp1
      rw [if_neg hp1] at hd
      by_cases hp2 : s.pending CmdSlot.setTuningStep = true
      · rw [if_pos hp2] at hd
        simp only [Option.some.injEq, Prod.mk.injEq] at hd
        obtain ⟨rfl, rfl⟩ := hd
        refine priorityClears_tail hn1
          (priorityClears_head _ hp2 (clearedSlot_removePendingCmd ?_ _))
        exact (good_of_eq hg rfl rfl rfl).2.1
      · have hn2 := pending_eq_false hp2
        rw [if_neg hp2] at hd
        simp only [Option.some.injEq, Prod.mk.injEq] at hd
        obtain ⟨rfl, rfl⟩ := hd
        exact priorityClears_tail hn1 (priorityClears_tail hn2 (priorityClears_nil _ _))

theorem decodeDataModeAndOVF_char {s s' : CivState} {p : List Nat} {b : Bool} (hg : Good s)
    (hd : s.decodeDataModeAndOVF p = some (s', b)) :
    (p.getD 0 0 = 0x06 →
      (3 ≤ p.length → PriorityClears s s' b [CmdSlot.setDataMode]) ∧
      (p.length < 3 → ShortResult s s' b [CmdSlot.setDataMode])) ∧
    (p.getD 0 0 = 0x09 →
      (2 ≤ p.length → PriorityClears s s' b [CmdSlot.getOVF]) ∧
      (p.length < 2 → ShortResult s s' b [CmdSlot.getOVF])) ∧
    (p.getD 0 0 ≠ 0x06 → p.getD 0 0 ≠ 0x09 → s' = s ∧ b = true) := by
  unfold CivState.decodeDataModeAndOVF at hd
  cases p with
  | nil => exact Option.noConfusion hd
  | cons d0 rest =>
    dsimp only at hd
    simp only [List.length_cons] at hd
    simp only [List.getD_cons_zero, List.length_cons]
    refine ⟨fun h06 => ?_, fun h09 => ?_, fun hn6 hn9 => ?_⟩
    · rw [if_pos h06] at hd
      refine ⟨fun hlen => ?_, fun hlen => ?_⟩
      · rw [if_neg (by omega)] at hd
        by_cases hp1 : s.pending CmdSlot.setDataMode = true
        · rw [if_pos hp1] at hd
          repeat' split at hd
          all_goals first
            | exact Option.noConfusion hd
            | (simp only [Option.some.injEq, Prod.mk.injEq] at hd
               obtain ⟨rfl, rfl⟩ := hd
               refine priorityClears_head _ hp1 (clearedSlot_removePendingCmd ?_ _)
               exact (good_of_eq hg rfl rfl rfl).2.1)
        · have hn1 := pending_eq_false hp1
          rw [if_neg hp1] at hd
          repeat' split at hd
          all_goals first
            | exact Option.noConfusion hd
            | (simp only [Option.some.injEq, Prod.mk.injEq] at hd
               obtain ⟨rfl, rfl⟩ := hd
               exact priorityClears_tail hn1 (priorityClears_nil _ _))
      · rw [if_pos (by omega)] at hd
        simp only [Option.some.injEq, Prod.mk.injEq] at hd
        obtain ⟨rfl, rfl⟩ := hd
        exact shortResult1 s _
    · rw [if_neg (by rw [h09]; decide), if_pos h09] at hd
      refine ⟨fun hlen => ?_, fun hlen => ?_⟩
      · rw [if_neg (by omega)] at hd
        by_cases hp1 : s.pending CmdSlot.getOVF = true
        · rw [if_pos hp1] at hd
          simp only [Option.some.injEq, Prod.mk.injEq] at hd
          obtain ⟨rfl, rfl⟩ := hd
          refine priorityClears_head _ hp1 (clearedSlot_removePendingCmd ?_ _)
          exact (good_of_eq hg rfl rfl rfl).2.1
        · have hn1 := pending_eq_false hp1
          rw [if_neg hp1] at hd
          simp only [Option.some.injEq, Prod.mk.injEq] at hd
          obtain ⟨rfl, rfl⟩ := hd
          exact priorityClears_tail hn1 (priorityClears_nil _ _)
      · rw [if_pos (by omega)] at hd
        simp only [Option.some.injEq, Prod.mk.injEq] at hd
        obtain ⟨rfl, rfl⟩ := hd
        exact shortResult1 s _
    · rw [if_neg hn6, if_neg hn9] at hd
      simp only [Option.some.injEq, Prod.mk.injEq] at hd
      exact ⟨hd.1.symm, hd.2.symm⟩

theorem decodePowerRFGainSQLNRPwr_char {s s' : CivState} {p : List Nat} {b : Bool} (hg : Good s)
    (hd : s.decodePowerRFGainSQLNRPwr p = some (s', b)) :
    (p.getD 0 0 = 0x02 →
      (3 ≤ p.length → PriorityClears s s' b [CmdSlot.getRFGain, CmdSlot.setRFGain]) ∧
      (p.length < 3 → ShortResult s s' b [CmdSlot.getRFGain, CmdSlot.setRFGain])) ∧
    (p.getD 0 0 = 0x03 →
      (3 ≤ p.length →
        (s.pending CmdSlot.getSQL = true → ClearedSlot s' b CmdSlot.getSQL) ∧
        (s.pending CmdSlot.getSQL = false → s.pending CmdSlot.setSQL = true →
          SkippedSlot s' b CmdSlot.setSQL) ∧
        (s.pending CmdSlot.getSQL = false → s.pending CmdSlot.setSQL = false → b = true)) ∧
      (p.length < 3 → ShortResult s s' b [CmdSlot.getSQL, CmdSlot.setSQL])) ∧
    (p.getD 0 0 = 0x06 →
      (3 ≤ p.length → PriorityClears s s' b [CmdSlot.getNR, CmdSlot.setNR]) ∧
      (p.length < 3 → ShortResult s s' b [CmdSlot.getNR, CmdSlot.setNR])) ∧
    (p.getD 0 0 = 0x0a →
      (3 ≤ p.length → PriorityClears s s' b [CmdSlot.getPwr, CmdSlot.setPwr]) ∧
      (p.length < 3 → ShortResult s s' b [CmdSlot.getPwr, CmdSlot.setPwr])) ∧
    (p.getD 0 0 ≠ 0x02 → p.getD 0 0 ≠ 0x03 → p.getD 0 0 ≠ 0x06 → p.getD 0 0 ≠ 0x0a →
      s' = s ∧ b = true) := by
  unfold CivState.decodePowerRFGainSQLNRPwr at hd
  cases p with
  | nil => exact Option.noConfusion hd
  | cons d0 rest =>
    dsimp only at hd
    simp only [List.getD_cons_zero, List.length_cons]
    refine ⟨fun h02 => ?_, fun h03 => ?_, fun h06 => ?_, fun h0a => ?_,
      fun hx2 hx3 hx6 hxa => ?_⟩
    · rw [if_pos h02] at hd
      refine ⟨fun hlen => ?_, fun hlen => ?_⟩
      · rw [if_neg (by omega)] at hd
        split at hd
        · exact Option.noConfusion hd
        · by_cases hp1 : s.pending CmdSlot.getRFGain = true
          · rw [if_pos hp1] at hd
            simp only [Option.some.injEq, Prod.mk.injEq] at hd
            obtain ⟨rfl, rfl⟩ := hd
            refine priorityClears_head _ hp1 (clearedSlot_removePendingCmd ?_ _)
            exact (good_of_eq hg rfl rfl rfl).2.1
          · have hn1 := pending_eq_false hp1
            rw [if_neg hp1] at hd
            by_cases hp2 : s.pending CmdSlot.setRFGain = true
            · rw [if_pos hp2] at hd
              simp only [Option.some.injEq, Prod.mk.injEq] at hd
              obtain ⟨rfl, rfl⟩ := hd
              refine priorityClears_tail hn1
                (priorityClears_head _ hp2 (clearedSlot_removePendingCmd ?_ _))
              exact (good_of_eq hg rfl rfl rfl).2.1
            · have hn2 := pending_eq_false hp2
              rw [if_neg hp2] at hd
              simp only [Option.some.injEq, Prod.mk.injEq] at hd
              obtain ⟨rfl, rfl⟩ := hd
              exact priorityClears_tail hn1
                (priorityClears_tail hn2 (priorityClears_nil _ _))
      · rw [if_pos (by omega)] at hd
        simp only [Option.some.injEq, Prod.mk.injEq] at hd
        obtain ⟨rfl, rfl⟩ := hd
        exact shortResult2 s _ _
    · rw [if_neg (by rw [h03]; decide), if_pos h03] at hd
      refine ⟨fun hlen => ?_, fun hlen => ?_⟩
      · rw [if_neg (by omega)] at hd
        split at hd
        · exact Option.noConfusion hd
        · refine ⟨fun hp1 => ?_, fun hn1 hp2 => ?_, fun hn1 hn2 => ?_⟩
          · rw [if_pos hp1] at hd
            simp only [Option.some.injEq, Prod.mk.injEq] at hd
            obtain ⟨rfl, rfl⟩ := hd
            refine clearedSlot_removePendingCmd ?_ _
            exact (good_of_eq hg rfl rfl rfl).2.1
          · rw [if_neg (by rw [hn1]; decide), if_pos hp2] at hd
            simp only [Option.some.injEq, Prod.mk.injEq] at hd
            obtain ⟨rfl, rfl⟩ := hd
            exact skippedSlot_of hp2 ((hg.1 CmdSlot.setSQL).mpr hp2)
          · rw [if_neg (by rw [hn1]; decide), if_neg (by rw [hn2]; decide)] at hd
            simp only [Option.some.injEq, Prod.mk.injEq] at hd
            exact hd.2.symm
      · rw [if_pos (by omega)] at hd
        simp only [Option.some.injEq, Prod.mk.injEq] at hd
        obtain ⟨rfl, rfl⟩ := hd
        exact shortResult2 s _ _
    · rw [if_neg (by rw [h06]; decide), if_neg (by rw [h06]; decide), if_pos h06] at hd
      refine ⟨fun hlen => ?_, fun hlen => ?_⟩
      · rw [if_neg (by omega)] at hd
        split at hd
        · exact Option.noConfusion hd
        · by_cases hp1 : s.pending CmdSlot.getNR = true
          · rw [if_pos hp1] at hd
            simp only [Option.some.injEq, Prod.mk.injEq] at hd
            obtain ⟨rfl, rfl⟩ := hd
            refine priorityClears_head _ hp1 (clearedSlot_removePendingCmd ?_ _)
            exact (good_of_eq hg rfl rfl rfl).2.1
          · have hn1 := pending_eq_false hp1
            rw [if_neg hp1] at hd
            by_cases hp2 : s.pending CmdSlot.setNR = true
            · rw [if_pos hp2] at hd
              simp only [Option.some.injEq, Prod.mk.injEq] at hd
              obtain ⟨rfl, rfl⟩ := hd
              refine priorityClears_tail hn1
                (priorityClears_head _ hp2 (clearedSlot_removePendingCmd ?_ _))
              exact (good_of_eq hg rfl rfl rfl).2.1
            · have hn2 := pending_eq_false hp2
              rw [if_neg hp2] at hd
              simp only [Option.some.injEq, Prod.mk.injEq] at hd
              obtain ⟨rfl, rfl⟩ := hd
              exact priorityClears_tail hn1
                (priorityClears_tail hn2 (priorityClears_nil _ _))
      · rw [if_pos (by omega)] at hd
        simp only [Option.some.injEq, Prod.mk.injEq] at hd
        obtain ⟨rfl, rfl⟩ := hd
        exact shortResult2 s _ _
    · rw [if_neg (by rw [h0a]; decide), if_neg (by rw [h0a]; decide),
        if_neg (by rw [h0a]; decide), if_pos h0a] at hd
      refine ⟨fun hlen => ?_, fun hlen => ?_⟩
      · rw [if_neg (by omega)] at hd
        split at hd
        · exact Option.noConfusion hd
        · by_cases hp1 : s.pending CmdSlot.getPwr = true
          · rw [if_pos hp1] at hd
            simp only [Option.some.injEq, Prod.mk.injEq] at hd
            obtain ⟨rfl, rfl⟩ := hd
            refine priorityClears_head _ hp1 (clearedSlot_removePendingCmd ?_ _)
            exact (good_of_eq hg rfl rfl rfl).2.1
          · have hn1 := pending_eq_false hp1
            rw [if_neg hp1] at hd
            by_cases hp2 : s.pending CmdSlot.setPwr = true
            · rw [if_pos hp2] at hd
              simp only [Option.some.injEq, Prod.mk.injEq] at hd
              obtain ⟨rfl, rfl⟩ := hd
              refine priorityClears_tail hn1
                (priorityClears_head _ hp2 (clearedSlot_removePendingCmd ?_ _))
              exact (good_of_eq hg rfl rfl rfl).2.1
            · have hn2 := pending_eq_false hp2
              rw [if_neg hp2] at hd
              simp only [Option.some.injEq, Prod.mk.injEq] at hd
              obtain ⟨rfl, rfl⟩ := hd
              exact priorityClears_tail hn1
                (priorityClears_tail hn2 (priorityClears_nil _ _))
      · rw [if_pos (by omega)] at hd
        simp only [Option.some.injEq, Prod.mk.injEq] at hd
        obtain ⟨rfl, rfl⟩ := hd
        exact shortResult2 s _ _
    · rw [if_neg hx2, if_neg hx3, if_neg hx6, if_neg hxa] at hd
      simp only [Option.some.injEq, Prod.mk.injEq] at hd
      exact ⟨hd.1.symm, hd.2.symm⟩

/-- The clearing behaviour of one `decodeTransmitStatus` sub-status
branch: the interior state `t` agrees with `s` on the three checked
slots, the first pending one of them is cleared, and the packet is
forwarded when none is pending. -/
theorem ts_branch_char {s t s' : CivState} {b : Bool} {x1 : CmdSlot}
    (hd : (if t.pending x1 = true then some (t.removePendingCmd x1, false)
           else t.transmitStatusTail) = some (s', b))
    (hgt : Good t)
    (hq1 : t.pending x1 = s.pending x1)
    (hq2 : t.pending CmdSlot.getTuneStatus = s.pending CmdSlot.getTuneStatus)
    (hq3 : t.pending CmdSlot.getTransmitStatus = s.pending CmdSlot.getTransmitStatus) :
    PriorityClears s s' b [x1, CmdSlot.getTuneStatus, CmdSlot.getTransmitStatus] := by
  unfold CivState.transmitStatusTail at hd
  rw [hq1, hq2, hq3] at hd
  by_cases hp1 : s.pending x1 = true
  · rw [if_pos hp1] at hd
    simp only [Option.some.injEq, Prod.mk.injEq] at hd
    obtain ⟨rfl, rfl⟩ := hd
    exact priorityClears_head _ hp1 (clearedSlot_removePendingCmd hgt.2.1 _)
  · have hn1 := pending_eq_false hp1
    rw [if_neg hp1] at hd
    by_cases hp2 : s.pending CmdSlot.getTuneStatus = true
    · rw [if_pos hp2] at hd
      simp only [Option.some.injEq, Prod.mk.injEq] at hd
      obtain ⟨rfl, rfl⟩ := hd
      exact priorityClears_tail hn1
        (priorityClears_head _ hp2 (clearedSlot_removePendingCmd hgt.2.1 _))
    · have hn2 := pending_eq_false hp2
      rw [if_neg hp2] at hd
      by_cases hp3 : s.pending CmdSlot.getTransmitStatus = true
      · rw [if_pos hp3] at hd
        simp only [Option.some.injEq, Prod.mk.injEq] at hd
        obtain ⟨rfl, rfl⟩ := hd
        exact priorityClears_tail hn1 (priorityClears_tail hn2
          (priorityClears_head _ hp3 (clearedSlot_removePendingCmd hgt.2.1 _)))
      · have hn3 := pending_eq_false hp3
        rw [if_neg hp3] at hd
        simp only [Option.some.injEq, Prod.mk.injEq] at hd
        obtain ⟨rfl, rfl⟩ := hd
        exact priorityClears_tail hn1 (priorityClears_tail hn2
          (priorityClears_tail hn3 (priorityClears_nil _ _)))

/-- The clearing behaviour of the bare `transmitStatusTail` (the
`decodeTransmitStatus` path for sub-status bytes other than 0 and 1). -/
theorem ts_tail_char {s s' : CivState} {b : Bool} (hg : Good s)
    (hd : s.transmitStatusTail = some (s', b)) :
    PriorityClears s s' b [CmdSlot.getTuneStatus, CmdSlot.getTransmitStatus] := by
  unfold CivState.transmitStatusTail at hd
  by_cases hp1 : s.pending CmdSlot.getTuneStatus = true
  · rw [if_pos hp1] at hd
    simp only [Option.some.injEq, Prod.mk.injEq] at hd
    obtain ⟨rfl, rfl⟩ := hd
    exact priorityClears_head _ hp1 (clearedSlot_removePendingCmd hg.2.1 _)
  · have hn1 := pending_eq_false hp1
    rw [if_neg hp1] at hd
    by_cases hp2 : s.pending CmdSlot.getTransmitStatus = true
    · rw [if_pos hp2] at hd
      simp only [Option.some.injEq, Prod.mk.injEq] at hd
      obtain ⟨rfl, rfl⟩ := hd
      exact priorityClears_tail hn1
        (priorityClears_head _ hp2 (clearedSlot_removePendingCmd hg.2.1 _))
    · have hn2 := pending_eq_false hp2
      rw [if_neg hp2] at hd
      simp only [Option.some.injEq, Prod.mk.injEq] at hd
      obtain ⟨rfl, rfl⟩ := hd
      exact priorityClears_tail hn1 (priorityClears_tail hn2 (priorityClears_nil _ _))

theorem decodeTransmitStatus_char {s s' : CivState} {p : List Nat} {b : Bool} (hg : Good s)
    (hd : s.decodeTransmitStatus p = some (s', b)) :
    (2 ≤ p.length →
      (p.getD 0 0 = 0 →
        PriorityClears s s' b
          [CmdSlot.setPTT, CmdSlot.getTuneStatus, CmdSlot.getTransmitStatus]) ∧
      (p.getD 0 0 = 1 →
        PriorityClears s s' b
          [CmdSlot.setTune, CmdSlot.getTuneStatus, CmdSlot.getTransmitStatus]) ∧
      (p.getD 0 0 ≠ 0 → p.getD 0 0 ≠ 1 →
        PriorityClears s s' b [CmdSlot.getTuneStatus, CmdSlot.getTransmitStatus])) ∧
    (p.length < 2 →
      ShortResult s s' b
        [CmdSlot.getTuneStatus, CmdSlot.getTransmitStatus, CmdSlot.setPTT]) := by
  unfold CivState.decodeTransmitStatus at hd
  by_cases hlen : p.length < 2
  · rw [if_pos hlen] at hd
    simp only [Option.some.injEq, Prod.mk.injEq] at hd
    obtain ⟨rfl, rfl⟩ := hd
    exact ⟨fun h2 => absurd hlen (by omega), fun _ => shortResult3 s _ _ _⟩
  · rw [if_neg hlen] at hd
    dsimp only at hd
    refine ⟨fun _ => ⟨fun h0 => ?_, fun h1 => ?_, fun hn0 hn1 => ?_⟩,
      fun hcon => absurd hcon hlen⟩
    · rw [if_pos h0] at hd
      by_cases hd1 : p.getD 1 0 = 1
      · rw [if_pos hd1] at hd
        refine ts_branch_char hd ?_ rfl rfl rfl
        exact good_of_eq hg rfl rfl rfl
      · rw [if_neg hd1] at hd
        by_cases hptt : s.ptt = true
        · rw [if_pos hptt] at hd
          refine ts_branch_char hd ?_ ?_ ?_ ?_
          · exact good_getVd (good_of_eq hg rfl rfl rfl)
          · exact getVd_pending_ne (by decide)
          · exact getVd_pending_ne (by decide)
          · exact getVd_pending_ne (by decide)
        · rw [if_neg hptt] at hd
          exact ts_branch_char hd hg rfl rfl rfl
    · rw [if_neg (by rw [h1]; decide), if_pos h1] at hd
      by_cases hd2 : p.getD 1 0 = 2
      · rw [if_pos hd2] at hd
        refine ts_branch_char hd ?_ rfl rfl rfl
        exact good_of_eq hg rfl rfl rfl
      · rw [if_neg hd2] at hd
        by_cases htune : s.tune = true
        · rw [if_pos htune] at hd
          refine ts_branch_char hd ?_ ?_ ?_ ?_
          · exact good_getVd (good_of_eq hg rfl rfl rfl)
          · exact getVd_pending_ne (by decide)
          · exact getVd_pending_ne (by decide)
          · exact getVd_pending_ne (by decide)
        · rw [if_neg htune] at hd
          exact ts_branch_char hd hg rfl rfl rfl
    · rw [if_neg hn0, if_neg hn1] at hd
      exact ts_tail_char hg hd

theorem decodeVdSWRS_char {s s' : CivState} {p : List Nat} {b : Bool} (hg : Good s)
    (hd : s.decodeVdSWRS p = some (s', b)) :
    (p.getD 0 0 = 0x02 →
      (3 ≤ p.length → PriorityClears s s' b [CmdSlot.getS]) ∧
      (p.length < 3 → ShortResult s s' b [CmdSlot.getS])) ∧
    (p.getD 0 0 = 0x12 →
      (3 ≤ p.length → PriorityClears s s' b [CmdSlot.getSWR]) ∧
      (p.length < 3 → ShortResult s s' b [CmdSlot.getSWR])) ∧
    (p.getD 0 0 = 0x15 →
      (3 ≤ p.length → PriorityClears s s' b [CmdSlot.getVd]) ∧
      (p.length < 3 → ShortResult s s' b [CmdSlot.getVd])) ∧
    (p.getD 0 0 ≠ 0x02 → p.getD 0 0 ≠ 0x12 → p.getD 0 0 ≠ 0x15 → s' = s ∧ b = true) := by
  unfold CivState.decodeVdSWRS at hd
  cases p with
  | nil => exact Option.noConfusion hd
  | cons d0 rest =>
    dsimp only at hd
    simp only [List.length_cons] at hd
    simp only [List.getD_cons_zero, List.length_cons]
    refine ⟨fun h02 => ?_, fun h12 => ?_, fun h15 => ?_, fun hx2 hx12 hx15 => ?_⟩
    · rw [if_pos h02] at hd
      refine ⟨fun hlen => ?_, fun hlen => ?_⟩
      · rw [if_neg (by omega)] at hd
        by_cases hp1 : s.pending CmdSlot.getS = true
        · rw [if_pos hp1] at hd
          simp only [Option.some.injEq, Prod.mk.injEq] at hd
          obtain ⟨rfl, rfl⟩ := hd
          refine priorityClears_head _ hp1 (clearedSlot_removePendingCmd ?_ _)
          exact (good_of_eq hg rfl rfl rfl).2.1
        · have hn1 := pending_eq_false hp1
          rw [if_neg hp1] at hd
          simp only [Option.some.injEq, Prod.mk.injEq] at hd
          obtain ⟨rfl, rfl⟩ := hd
          exact priorityClears_tail hn1 (priorityClears_nil _ _)
      · rw [if_pos (by omega)] at hd
        simp only [Option.some.injEq, Prod.mk.injEq] at hd
        obtain ⟨rfl, rfl⟩ := hd
        exact shortResult1 s _
    · rw [if_neg (by rw [h12]; decide), if_pos h12] at hd
      refine ⟨fun hlen => ?_, fun hlen => ?_⟩
      · rw [if_neg (by omega)] at hd
        by_cases hp1 : s.pending CmdSlot.getSWR = true
        · rw [if_pos hp1] at hd
          simp only [Option.some.injEq, Prod.mk.injEq] at hd
          obtain ⟨rfl, rfl⟩ := hd
          refine priorityClears_head _ hp1 (clearedSlot_removePendingCmd ?_ _)
          exact (good_of_eq hg rfl rfl rfl).2.1
        · have hn1 := pending_eq_false hp1
          rw [if_neg hp1] at hd
          simp only [Option.some.injEq, Prod.mk.injEq] at hd
          obtain ⟨rfl, rfl⟩ := hd
          exact priorityClears_tail hn1 (priorityClears_nil _ _)
      · rw [if_pos (by omega)] at hd
        simp only [Option.some.injEq, Prod.mk.injEq] at hd
        obtain ⟨rfl, rfl⟩ := hd
        exact shortResult1 s _
    · rw [if_neg (by rw [h15]; decide), if_neg (by rw [h15]; decide), if_pos h15] at hd
      refine ⟨fun hlen => ?_, fun hlen => ?_⟩
      · rw [if_neg (by omega)] at hd
        by_cases hp1 : s.pending CmdSlot.getVd = true
        · rw [if_pos hp1] at hd
          simp only [Option.some.injEq, Prod.mk.injEq] at hd
          obtain ⟨rfl, rfl⟩ := hd
          exact priorityClears_head _ hp1 (clearedSlot_removePendingCmd hg.2.1 _)
        · have hn1 := pending_eq_false hp1
          rw [if_neg hp1] at hd
          simp only [Option.some.injEq, Prod.mk.injEq] at hd
          obtain ⟨rfl, rfl⟩ := hd
          exact priorityClears_tail hn1 (priorityClears_nil _ _)
      · rw [if_pos (by omega)] at hd
        simp only [Option.some.injEq, Prod.mk.injEq] at hd
        obtain ⟨rfl, rfl⟩ := hd
        exact shortResult1 s _
    · rw [if_neg hx2, if_neg hx12, if_neg hx15] at hd
      simp only [Option.some.injEq, Prod.mk.injEq] at hd
      exact ⟨hd.1.symm, hd.2.symm⟩

theorem decodePreampAGCNREnabled_char {s s' : CivState} {p : List Nat} {b : Bool} (hg : Good s)
    (hd : s.decodePreampAGCNREnabled p = some (s', b)) :
    (p.getD 0 0 = 0x02 →
      (2 ≤ p.length → PriorityClears s s' b [CmdSlot.getPreamp, CmdSlot.setPreamp]) ∧
      (p.length < 2 → ShortResult s s' b [CmdSlot.getPreamp, CmdSlot.setPreamp])) ∧
    (p.getD 0 0 = 0x12 →
      (2 ≤ p.length → PriorityClears s s' b [CmdSlot.getAGC, CmdSlot.setAGC]) ∧
      (p.length < 2 → ShortResult s s' b [CmdSlot.getAGC, CmdSlot.setAGC])) ∧
    (p.getD 0 0 = 0x40 →
      (2 ≤ p.length → PriorityClears s s' b [CmdSlot.getNREnabled, CmdSlot.setNREnabled]) ∧
      (p.length < 2 → ShortResult s s' b [CmdSlot.getNREnabled, CmdSlot.setNREnabled])) ∧
    (p.getD 0 0 ≠ 0x02 → p.getD 0 0 ≠ 0x12 → p.getD 0 0 ≠ 0x40 → s' = s ∧ b = true) := by
  unfold CivState.decodePreampAGCNREnabled at hd
  cases p with
  | nil => exact Option.noConfusion hd
  | cons d0 rest =>
    dsimp only at hd
    simp only [List.getD_cons_zero, List.length_cons]
    refine ⟨fun h02 => ?_, fun h12 => ?_, fun h40 => ?_, fun hx2 hx12 hx40 => ?_⟩
    · rw [if_pos h02] at hd
      refine ⟨fun hlen => ?_, fun hlen => ?_⟩
      · rw [if_neg (by omega)] at hd
        by_cases hp1 : s.pending CmdSlot.getPreamp = true
        · rw [if_pos hp1] at hd
          simp only [Option.some.injEq, Prod.mk.injEq] at hd
          obtain ⟨rfl, rfl⟩ := hd
          refine priorityClears_head _ hp1 (clearedSlot_removePendingCmd ?_ _)
          exact (good_of_eq hg rfl rfl rfl).2.1
        · have hn1 := pending_eq_false hp1
          rw [if_neg hp1] at hd
          by_cases hp2 : s.pending CmdSlot.setPreamp = true
          · rw [if_pos hp2] at hd
            simp only [Option.some.injEq, Prod.mk.injEq] at hd
            obtain ⟨rfl, rfl⟩ := hd
            refine priorityClears_tail hn1
              (priorityClears_head _ hp2 (clearedSlot_removePendingCmd ?_ _))
            exact (good_of_eq hg rfl rfl rfl).2.1
          · have hn2 := pending_eq_false hp2
            rw [if_neg hp2] at hd
            simp only [Option.some.injEq, Prod.mk.injEq] at hd
            obtain ⟨rfl, rfl⟩ := hd
            exact priorityClears_tail hn1 (priorityClears_tail hn2 (priorityClears_nil _ _))
      · rw [if_pos (by omega)] at hd
        simp only [Option.some.injEq, Prod.mk.injEq] at hd
        obtain ⟨rfl, rfl⟩ := hd
        exact shortResult2 s _ _
    · rw [if_neg (by rw [h12]; decide), if_pos h12] at hd
      refine ⟨fun hlen => ?_, fun hlen => ?_⟩
      · rw [if_neg (by omega)] at hd
        by_cases hp1 : s.pending CmdSlot.getAGC = true
        · rw [if_pos hp1] at hd
          simp only [Option.some.injEq, Prod.mk.injEq] at hd
          obtain ⟨rfl, rfl⟩ := hd
          refine priorityClears_head _ hp1 (clearedSlot_removePendingCmd ?_ _)
          exact (good_of_eq hg rfl rfl rfl).2.1
        · have hn1 := pending_eq_false hp1
          rw [if_neg hp1] at hd
          by_cases hp2 : s.pending CmdSlot.setAGC = true
          · rw [if_pos hp2] at hd
            simp only [Option.some.injEq, Prod.mk.injEq] at hd
            obtain ⟨rfl, rfl⟩ := hd
            refine priorityClears_tail hn1
              (priorityClears_head _ hp2 (clearedSlot_removePendingCmd ?_ _))
            exact (good_of_eq hg rfl rfl rfl).2.1
          · have hn2 := pending_eq_false hp2
            rw [if_neg hp2] at hd
            simp only [Option.some.injEq, Prod.mk.injEq] at hd
            obtain ⟨rfl, rfl⟩ := hd
            exact priorityClears_tail hn1 (priorityClears_tail hn2 (priorityClears_nil _ _))
      · rw [if_pos (by omega)] at hd
        simp only [Option.some.injEq, Prod.mk.injEq] at hd
        obtain ⟨rfl, rfl⟩ := hd
        exact shortResult2 s _ _
    · rw [if_neg (by rw [h40]; decide), if_neg (by rw [h40]; decide), if_pos h40] at hd
      refine ⟨fun hlen => ?_, fun hlen => ?_⟩
      · rw [if_neg (by omega)] at hd
        by_cases hp1 : s.pending CmdSlot.getNREnabled = true
        · rw [if_pos hp1] at hd
          simp only [Option.some.injEq, Prod.mk.injEq] at hd
          obtain ⟨rfl, rfl⟩ := hd
          refine priorityClears_head _ hp1 (clearedSlot_removePendingCmd ?_ _)
          exact (good_of_eq hg rfl rfl rfl).2.1
        · have hn1 := pending_eq_false hp1
          rw [if_neg hp1] at hd
          by_cases hp2 : s.pending CmdSlot.setNREnabled = true
          · rw [if_pos hp2] at hd
            simp only [Option.some.injEq, Prod.mk.injEq] at hd
            obtain ⟨rfl, rfl⟩ := hd
            refine priorityClears_tail hn1
              (priorityClears_head _ hp2 (clearedSlot_removePendingCmd ?_ _))
            exact (good_of_eq hg rfl rfl rfl).2.1
          · have hn2 := pending_eq_false hp2
            rw [if_neg hp2] at hd
            simp only [Option.some.injEq, Prod.mk.injEq] at hd
            obtain ⟨rfl, rfl⟩ := hd
            exact priorityClears_tail hn1 (priorityClears_tail hn2 (priorityClears_nil _ _))
      · rw [if_pos (by omega)] at hd
        simp only [Option.some.injEq, Prod.mk.injEq] at hd
        obtain ⟨rfl, rfl⟩ := hd
        exact shortResult2 s _ _
    · rw [if_neg hx2, if_neg hx12, if_neg hx40] at hd
      simp only [Option.some.injEq, Prod.mk.injEq] at hd
      exact ⟨hd.1.symm, hd.2.symm⟩

theorem decodeVFOFreq_char {s s' : CivState} {p : List Nat} {b : Bool} (hg : Good s)
    (hd : s.decodeVFOFreq p = some (s', b)) :
    (2 ≤ p.length →
      (p.getD 0 0 = 0x01 →
        PriorityClears s s' b [CmdSlot.getSubVFOFreq, CmdSlot.setSubVFOFreq]) ∧
      (p.getD 0 0 ≠ 0x01 →
        PriorityClears s s' b [CmdSlot.getMainVFOFreq, CmdSlot.setMainVFOFreq])) ∧
    (p.length < 2 →
      ShortResult s s' b
        [CmdSlot.getMainVFOFreq, CmdSlot.getSubVFOFreq, CmdSlot.setSubVFOFreq]) := by
  unfold CivState.decodeVFOFreq at hd
  by_cases hlen : p.length < 2
  · rw [if_pos hlen] at hd
    simp only [Option.some.injEq, Prod.mk.injEq] at hd
    obtain ⟨rfl, rfl⟩ := hd
    exact ⟨fun h2 => absurd hlen (by omega), fun _ => shortResult3 s _ _ _⟩
  · rw [if_neg hlen] at hd
    dsimp only at hd
    refine ⟨fun _ => ⟨fun h01 => ?_, fun hn01 => ?_⟩, fun hcon => absurd hcon hlen⟩
    · rw [if_pos h01] at hd
      by_cases hp1 : s.pending CmdSlot.getSubVFOFreq = true
      · rw [if_pos hp1] at hd
        simp only [Option.some.injEq, Prod.mk.injEq] at hd
        obtain ⟨rfl, rfl⟩ := hd
        refine priorityClears_head _ hp1 (clearedSlot_removePendingCmd ?_ _)
        exact (good_of_eq hg rfl rfl rfl).2.1
      · have hn1 := pending_eq_false hp1
        rw [if_neg hp1] at hd
        by_cases hp2 : s.pending CmdSlot.setSubVFOFreq = true
        · rw [if_pos hp2] at hd
          simp only [Option.some.injEq, Prod.mk.injEq] at hd
          obtain ⟨rfl, rfl⟩ := hd
          refine priorityClears_tail hn1
            (priorityClears_head _ hp2 (clearedSlot_removePendingCmd ?_ _))
          exact (good_of_eq hg rfl rfl rfl).2.1
        · have hn2 := pending_eq_false hp2
          rw [if_neg hp2] at hd
          simp only [Option.some.injEq, Prod.mk.injEq] at hd
          obtain ⟨rfl, rfl⟩ := hd
          exact priorityClears_tail hn1 (priorityClears_tail hn2 (priorityClears_nil _ _))
    · rw [if_neg hn01] at hd
      rw [(sameCore_relocateBand _).2.1] at hd
      dsimp only at hd
      have hG : Good (({ s with freq := decodeFreqData (p.drop 1) } : CivState).relocateBand) := by
        refine good_of_sameCore hg (sameCore_trans ?_ (sameCore_relocateBand _))
        exact ⟨rfl, rfl, rfl, rfl, rfl⟩
      by_cases hp1 : s.pending CmdSlot.getMainVFOFreq = true
      · rw [if_pos hp1] at hd
        simp only [Option.some.injEq, Prod.mk.injEq] at hd
        obtain ⟨rfl, rfl⟩ := hd
        exact priorityClears_head _ hp1 (clearedSlot_removePendingCmd hG.2.1 _)
      · have hn1 := pending_eq_false hp1
        rw [if_neg hp1] at hd
        by_cases hp2 : s.pending CmdSlot.setMainVFOFreq = true
        · rw [if_pos hp2] at hd
          simp only [Option.some.injEq, Prod.mk.injEq] at hd
          obtain ⟨rfl, rfl⟩ := hd
          exact priorityClears_tail hn1
            (priorityClears_head _ hp2 (clearedSlot_removePendingCmd hG.2.1 _))
        · have hn2 := pending_eq_false hp2
          rw [if_neg hp2] at hd
          simp only [Option.some.injEq, Prod.mk.injEq] at hd
          obtain ⟨rfl, rfl⟩ := hd
          exact priorityClears_tail hn1 (priorityClears_tail hn2 (priorityClears_nil _ _))

theorem decodeVFOMode_char {s s' : CivState} {p : List Nat} {b : Bool} (hg : Good s)
    (hd : s.decodeVFOMode p = some (s', b)) :
    (2 ≤ p.length →
      (p.getD 0 0 = 0x01 →
        PriorityClears s s' b [CmdSlot.getSubVFOMode, CmdSlot.setSubVFOMode]) ∧
      (p.getD 0 0 ≠ 0x01 → PriorityClears s s' b [CmdSlot.getMainVFOMode])) ∧
    (p.length < 2 →
      ShortResult s s' b
        [CmdSlot.getMainVFOMode, CmdSlot.getSubVFOMode, CmdSlot.setSubVFOMode]) := by
  unfold CivState.decodeVFOMode at hd
  by_cases hlen : p.length < 2
  · rw [if_pos hlen] at hd
    simp only [Option.some.injEq, Prod.mk.injEq] at hd
    obtain ⟨rfl, rfl⟩ := hd
    exact ⟨fun h2 => absurd hlen (by omega), fun _ => shortResult3 s _ _ _⟩
  · rw [if_neg hlen] at hd
    dsimp only at hd
    refine ⟨fun _ => ⟨fun h01 => ?_, fun hn01 => ?_⟩, fun hcon => absurd hcon hlen⟩
    · rw [if_pos h01] at hd
      by_cases hp1 : s.pending CmdSlot.getSubVFOMode = true
      · rw [if_pos hp1] at hd
        repeat' split at hd
        all_goals first
          | exact Option.noConfusion hd
          | (simp only [Option.some.injEq, Prod.mk.injEq] at hd
             obtain ⟨rfl, rfl⟩ := hd
             refine priorityClears_head _ hp1 (clearedSlot_removePendingCmd ?_ _)
             exact (good_of_eq hg rfl rfl rfl).2.1)
      · have hn1 := pending_eq_false hp1
        rw [if_neg hp1] at hd
        by_cases hp2 : s.pending CmdSlot.setSubVFOMode = true
        · rw [if_pos hp2] at hd
          repeat' split at hd
          all_goals first
            | exact Option.noConfusion hd
            | (simp only [Option.some.injEq, Prod.mk.injEq] at hd
               obtain ⟨rfl, rfl⟩ := hd
               refine priorityClears_tail hn1
                 (priorityClears_head _ hp2 (clearedSlot_removePendingCmd ?_ _))
               exact (good_of_eq hg rfl rfl rfl).2.1)
        · have hn2 := pending_eq_false hp2
          rw [if_neg hp2] at hd
          repeat' split at hd
          all_goals first
            | exact Option.noConfusion hd
            | (simp only [Option.some.injEq, Prod.mk.injEq] at hd
               obtain ⟨rfl, rfl⟩ := hd
               exact priorityClears_tail hn1
                 (priorityClears_tail hn2 (priorityClears_nil _ _)))
    · rw [if_neg hn01] at hd
      repeat' split at hd
      all_goals first
        | exact Option.noConfusion hd
        | (simp only [Option.some.injEq, Prod.mk.injEq] at hd
           obtain ⟨rfl, rfl⟩ := hd
           first
             | (refine priorityClears_head _ (by assumption)
                  (clearedSlot_removePendingCmd ?_ _)
                exact (good_of_eq hg rfl rfl rfl).2.1)
             | exact priorityClears_tail (pending_eq_false (by assumption))
                 (priorityClears_nil _ _))

/-! ## Claim theorems -/

theorem nibblePack (hi lo : Nat) (h1 : hi < 10) (h2 : lo < 10) :
    (hi <<< 4 ||| lo) % 256 = hi <<< 4 ||| lo ∧
      ((hi <<< 4 ||| lo) &&& 0x0f) = lo ∧ ((hi <<< 4 ||| lo) >>> 4) = hi := by
  interval_cases hi <;> interval_cases lo <;> decide

theorem digit_lt (v k : Nat) : getDigit v k < 10 :=
  Nat.mod_lt _ (by norm_num)

/-- C3: for every frequency `n ≤ 9 999 999 999`, encoding with the 5-byte
little-endian BCD `encodeFreqData` and decoding with `decodeFreqData`
gives back `n`. -/
theorem freq_bcd_roundtrip (n : Nat) (h : n ≤ 9999999999) :
    decodeFreqData (encodeFreqData n) = n := by
  unfold decodeFreqData encodeFreqData
  simp only [decodeFreqDataAux]
  rw [(nibblePack _ _ (digit_lt n 1) (digit_lt n 0)).1,
      (nibblePack _ _ (digit_lt n 3) (digit_lt n 2)).1,
      (nibblePack _ _ (digit_lt n 5) (digit_lt n 4)).1,
      (nibblePack _ _ (digit_lt n 7) (digit_lt n 6)).1,
      (nibblePack _ _ (digit_lt n 9) (digit_lt n 8)).1,
      (nibblePack _ _ (digit_lt n 1) (digit_lt n 0)).2.1,
      (nibblePack _ _ (digit_lt n 1) (digit_lt n 0)).2.2,
      (nibblePack _ _ (digit_lt n 3) (digit_lt n 2)).2.1,
      (nibblePack _ _ (digit_lt n 3) (digit_lt n 2)).2.2,
      (nibblePack _ _ (digit_lt n 5) (digit_lt n 4)).2.1,
      (nibblePack _ _ (digit_lt n 5) (digit_lt n 4)).2.2,
      (nibblePack _ _ (digit_lt n 7) (digit_lt n 6)).2.1,
      (nibblePack _ _ (digit_lt n 7) (digit_lt n 6)).2.2,
      (nibblePack _ _ (digit_lt n 9) (digit_lt n 8)).2.1,
      (nibblePack _ _ (digit_lt n 9) (digit_lt n 8)).2.2]
  unfold getDigit
  norm_num
  omega

theorem freq_bcd_roundtrip_witness :
    14250000 ≤ 9999999999 ∧ decodeFreqData (encodeFreqData 14250000) = 14250000 :=
  ⟨by norm_num, freq_bcd_roundtrip 14250000 (by norm_num)⟩

set_option maxHeartbeats 4000000 in
set_option maxRecDepth 10000 in
theorem encodeForSend_fin :
    ∀ i : Fin 256, encodeForSend (i : Nat) = [(i : Nat) / 100, (i : Nat) % 100] ∧
      BCDToDec (encodeForSend (i : Nat)) = some (i : Nat) := by
  decide

/-- C9: for every level `0 ≤ n ≤ 255` the double-dabble encoder
`encodeForSend` produces exactly the bytes `[n / 100, n % 100]`, and
`BCDToDec` decodes them back to `n`. -/
theorem level_encode_roundtrip (n : Nat) (h : n ≤ 255) :
    encodeForSend (n : Int) = [n / 100, n % 100] ∧
      BCDToDec (encodeForSend (n : Int)) = some n := by
  have := encodeForSend_fin ⟨n, by omega⟩
  simpa using this

theorem level_encode_roundtrip_witness :
    137 ≤ 255 ∧ encodeForSend (137 : Int) = [137 / 100, 137 % 100] ∧
      BCDToDec (encodeForSend (137 : Int)) = some 137 :=
  ⟨by norm_num, (level_encode_roundtrip 137 (by norm_num)).1,
    (level_encode_roundtrip 137 (by norm_num)).2⟩

/-- C8 counterexample: the claim says the SWR formula realizes
`0048 → 1.5`, but `BCDToSWR` maps the decoded value 48 to 9/5 = 1.8,
not 3/2 = 1.5. -/
theorem swr_mapping_counterexample :
    BCDToSWR [0x00, 48] = some (9 / 5 : ℚ) ∧ (9 / 5 : ℚ) ≠ (3 / 2 : ℚ) := by
  constructor
  · norm_num [BCDToSWR, BCDToDec]
  · norm_num

/-- C8 amended: `BCDToSWR` computes the linear formula `1 + 2·(bcd/120)`
over the decoded 2-byte value (that is its definition), realizing the
mapping `0 → 1.0`, `48 → 1.8`, `80 → 7/3`, `120 → 3.0`: it agrees with
the documented nonlinear table only at the endpoints 0 and 120. -/
theorem swr_mapping_amended :
    BCDToSWR [0x00, 0x00] = some (1 : ℚ) ∧ BCDToSWR [0x00, 48] = some (9 / 5 : ℚ) ∧
      BCDToSWR [0x00, 80] = some (7 / 3 : ℚ) ∧ BCDToSWR [0x01, 20] = some (3 : ℚ) := by
  refine ⟨?_, ?_, ?_, ?_⟩ <;> norm_num [BCDToSWR, BCDToDec]

/-- C4 counterexample: with the default addresses, `setMainVFOFreq
14250000` does not transmit the packet claimed in the spec
(`… 00 50 25 14 00 …`, which would encode 14 255 000 Hz). -/
theorem setMainVFOFreq_packet_counterexample :
    (initialState.setMainVFOFreq 14250000).transmitted ≠
      [[0xfe, 0xfe, 0xa4, 0xe0, 0x25, 0x00, 0x00, 0x50, 0x25, 0x14, 0x00, 0xfd]] := by
  decide

/-- C4 amended: `setMainVFOFreq 14250000` builds and transmits exactly
the on-wire CI-V packet `FE FE A4 E0 25 00 00 00 25 14 00 FD` (correct
little-endian BCD of 14 250 000 Hz). -/
theorem setMainVFOFreq_packet_amended :
    (initialState.setMainVFOFreq 14250000).transmitted =
      [[0xfe, 0xfe, 0xa4, 0xe0, 0x25, 0x00, 0x00, 0x00, 0x25, 0x14, 0x00, 0xfd]] := by
  decide

/-- C6: `decode` does not survive every too-short packet: a well-formed
CI-V frame whose payload is empty panics (index out of range, modelled
by `none`) for commands 0x15, 0x14, 0x16 and 0x1a, whose decoders read
`d[0]` before any length check. -/
theorem decode_short_packet_panic :
    initialState.decode [0xfe, 0xfe, 0xa4, 0xe0, 0x15, 0xfd] = none ∧
      initialState.decode [0xfe, 0xfe, 0xa4, 0xe0, 0x14, 0xfd] = none ∧
      initialState.decode [0xfe, 0xfe, 0xa4, 0xe0, 0x16, 0xfd] = none ∧
      initialState.decode [0xfe, 0xfe, 0xa4, 0xe0, 0x1a, 0xfd] = none :=
  ⟨rfl, rfl, rfl, rfl⟩

/-- C5: after decoding a frequency of 100 Hz (contained in no band of
`civBands`), `bandIdx` is not a sentinel "general" band: the GENE entry
is commented out of the table, so `bandIdx` stays at the default
`len(civBands)-1 = 11`, which is the real 420–450 MHz band. -/
theorem bandIdx_general_band_bug :
    (civStateAfter initialState [0xfe, 0xfe, 0xe0, 0xa4, 0x03, 0x00, 0x01, 0xfd]).freq = 100 ∧
      firstIdxWhere (fun band => decide (band.1 ≤ 100) && decide (100 ≤ band.2)) civBands =
        none ∧
      (civStateAfter initialState
          [0xfe, 0xfe, 0xe0, 0xa4, 0x03, 0x00, 0x01, 0xfd]).bandIdx = civBands.length - 1 ∧
      civBands.getD 11 (0, 0) = (420000000, 450000000) := by
  decide

/-- C10: while the mirrored PTT is on, `setTune` is a no-op for either
argument: it changes no field of the controller state and transmits
nothing. -/
theorem setTune_noop_during_ptt (s : CivState) (e : Bool) (h : s.ptt = true) :
    s.setTune e = s := by
  unfold CivState.setTune
  simp [h]

theorem setTune_noop_during_ptt_witness :
    ({ initialState with ptt := true } : CivState).ptt = true ∧
      ({ initialState with ptt := true } : CivState).setTune true =
        { initialState with ptt := true } :=
  ⟨rfl, setTune_noop_during_ptt _ true rfl⟩

/-- C1: in every reachable state of the connected controller — i.e.
after any sequence of public operations, decodes and timer events — a
command slot is in `pendingCmds` iff its `pending` flag is true, and
this is preserved by every further public get/set operation
(`initCmd` followed by `sendCmd`) and by every decode of an inbound
CI-V packet. -/
theorem civ_pending_set_invariant {s : CivState} (hr : Reachable s) :
    (∀ x : CmdSlot, x ∈ s.pendingCmds ↔ s.pending x = true) ∧
      (∀ op : PublicOp, ∀ x : CmdSlot,
        x ∈ (op.run s).pendingCmds ↔ (op.run s).pending x = true) ∧
      (∀ (d : List Nat) (s' : CivState) (b : Bool), s.decode d = some (s', b) →
        ∀ x : CmdSlot, x ∈ s'.pendingCmds ↔ s'.pending x = true) := by
  have hg := reachable_good hr
  refine ⟨hg.1, fun op x => (run_good op hg).1 x, fun d s' b hd x => (decode_ok hg hd).1.1 x⟩

theorem civ_pending_set_invariant_witness :
    Reachable initialState ∧
      (CmdSlot.getFreq ∈ (PublicOp.getFreq.run initialState).pendingCmds ↔
        (PublicOp.getFreq.run initialState).pending CmdSlot.getFreq = true) :=
  ⟨Relation.ReflTransGen.refl,
    (civ_pending_set_invariant Relation.ReflTransGen.refl).2.1 PublicOp.getFreq CmdSlot.getFreq⟩

/-- C2 counterexample: a complete, well-formed squelch-level response
(command 0x14, subcommand 0x03 — exactly the `CIV` map entry for
`setSQL`) arrives while the `setSQL` slot is pending in a reachable
state.  The claim says decode must clear the slot's pending flag, remove
the slot from the pending set and return false; the code returns false
but leaves `setSQL` pending and in the pending set (part_000 lines
645-647 return without calling `removePendingCmd`). -/
theorem decode_forward_counterexample :
    CIV CIVKey.setSQL = [0x14, 0x03] ∧
    Reachable ((PublicOp.setSQL 0).run initialState) ∧
    ((PublicOp.setSQL 0).run initialState).pending CmdSlot.setSQL = true ∧
    CmdSlot.setSQL ∈ ((PublicOp.setSQL 0).run initialState).pendingCmds ∧
    ((PublicOp.setSQL 0).run initialState).decode
        [0xfe, 0xfe, 0xe0, 0xa4, 0x14, 0x03, 0x00, 0x00, 0xfd] =
      some (civStateAfter ((PublicOp.setSQL 0).run initialState)
          [0xfe, 0xfe, 0xe0, 0xa4, 0x14, 0x03, 0x00, 0x00, 0xfd], false) ∧
    (civStateAfter ((PublicOp.setSQL 0).run initialState)
        [0xfe, 0xfe, 0xe0, 0xa4, 0x14, 0x03, 0x00, 0x00, 0xfd]).pending
      CmdSlot.setSQL = true ∧
    CmdSlot.setSQL ∈ (civStateAfter ((PublicOp.setSQL 0).run initialState)
        [0xfe, 0xfe, 0xe0, 0xa4, 0x14, 0x03, 0x00, 0x00, 0xfd]).pendingCmds :=
  ⟨rfl, Relation.ReflTransGen.single (Step.publicOp initialState (PublicOp.setSQL 0)),
    by decide, by decide, rfl, by decide, by decide⟩

/-- C2 amended: the forwarding/clearing contract of `decode` in a
reachable controller state.  (1) Whenever a decode removes a command
slot from the pending set, it also clears that slot's pending flag and
the packet is withheld from the serial consumers (returns false).
(2) For a well-formed frame, per command byte: a response whose payload
is complete for its command clears the first pending slot in the
decoder's checking order — removing it from the pending set and
clearing its flag — and is forwarded (returns true) when no checked
slot is pending, with one exception: a complete squelch-level response
(0x14 0x03) while `setSQL` is pending and `getSQL` is not returns false
but leaves `setSQL` pending and in the pending set (part_000 line 646);
the unimplemented transceive command 0x02 always returns false and
changes nothing; a packet too short for its command leaves the state
unchanged and returns false exactly when one of its command's slots is
pending; and a well-formed frame with any other command byte returns
true and changes nothing. -/
theorem decode_forward_amended {s : CivState} (hr : Reachable s) :
    ∀ (d : List Nat) (s' : CivState) (b : Bool), s.decode d = some (s', b) →
      (∀ x : CmdSlot, x ∈ s.pendingCmds → x ∉ s'.pendingCmds →
        s'.pending x = false ∧ b = false) ∧
      (WellFormedPkt d →
        ((pktCmd d = 0x00 ∨ pktCmd d = 0x03 ∨ pktCmd d = 0x05) →
          (2 ≤ (pktPayload d).length →
            PriorityClears s s' b [CmdSlot.getFreq, CmdSlot.setMainVFOFreq]) ∧
          ((pktPayload d).length < 2 →
            ShortResult s s' b [CmdSlot.getFreq, CmdSlot.setMainVFOFreq])) ∧
        ((pktCmd d = 0x01 ∨ pktCmd d = 0x04 ∨ pktCmd d = 0x06) →
          (1 ≤ (pktPayload d).length → PriorityClears s s' b [CmdSlot.setMode]) ∧
          ((pktPayload d).length < 1 → ShortResult s s' b [CmdSlot.setMode])) ∧
        (pktCmd d = 0x02 → s' = s ∧ b = false) ∧
        (pktCmd d = 0x07 →
          (1 ≤ (pktPayload d).length → PriorityClears s s' b [CmdSlot.setVFO]) ∧
          ((pktPayload d).length < 1 → ShortResult s s' b [CmdSlot.setVFO])) ∧
        (pktCmd d = 0x0f →
          (1 ≤ (pktPayload d).length →
            PriorityClears s s' b [CmdSlot.getSplit, CmdSlot.setSplit]) ∧
          ((pktPayload d).length < 1 →
            ShortResult s s' b [CmdSlot.getSplit, CmdSlot.setSplit])) ∧
        (pktCmd d = 0x10 →
          (1 ≤ (pktPayload d).length →
            PriorityClears s s' b [CmdSlot.getTuningStep, CmdSlot.setTuningStep]) ∧
          ((pktPayload d).length < 1 →
            ShortResult s s' b [CmdSlot.getTuningStep, CmdSlot.setTuningStep])) ∧
        (pktCmd d = 0x1a →
          ((pktPayload d).getD 0 0 = 0x06 →
            (3 ≤ (pktPayload d).length → PriorityClears s s' b [CmdSlot.setDataMode]) ∧
            ((pktPayload d).length < 3 → ShortResult s s' b [CmdSlot.setDataMode])) ∧
          ((pktPayload d).getD 0 0 = 0x09 →
            (2 ≤ (pktPayload d).length → PriorityClears s s' b [CmdSlot.getOVF]) ∧
            ((pktPayload d).length < 2 → ShortResult s s' b [CmdSlot.getOVF])) ∧
          ((pktPayload d).getD 0 0 ≠ 0x06 → (pktPayload d).getD 0 0 ≠ 0x09 →
            s' = s ∧ b = true)) ∧
        (pktCmd d = 0x14 →
          ((pktPayload d).getD 0 0 = 0x02 →
            (3 ≤ (pktPayload d).length →
              PriorityClears s s' b [CmdSlot.getRFGain, CmdSlot.setRFGain]) ∧
            ((pktPayload d).length < 3 →
              ShortResult s s' b [CmdSlot.getRFGain, CmdSlot.setRFGain])) ∧
          ((pktPayload d).getD 0 0 = 0x03 →
            (3 ≤ (pktPayload d).length →
              (s.pending CmdSlot.getSQL = true → ClearedSlot s' b CmdSlot.getSQL) ∧
              (s.pending CmdSlot.getSQL = false → s.pending CmdSlot.setSQL = true →
                SkippedSlot s' b CmdSlot.setSQL) ∧
              (s.pending CmdSlot.getSQL = false → s.pending CmdSlot.setSQL = false →
                b = true)) ∧
            ((pktPayload d).length < 3 →
              ShortResult s s' b [CmdSlot.getSQL, CmdSlot.setSQL])) ∧
          ((pktPayload d).getD 0 0 = 0x06 →
            (3 ≤ (pktPayload d).length →
              PriorityClears s s' b [CmdSlot.getNR, CmdSlot.setNR]) ∧
            ((pktPayload d).length < 3 → ShortResult s s' b [CmdSlot.getNR, CmdSlot.setNR])) ∧
          ((pktPayload d).getD 0 0 = 0x0a →
            (3 ≤ (pktPayload d).length →
              PriorityClears s s' b [CmdSlot.getPwr, CmdSlot.setPwr]) ∧
            ((pktPayload d).length < 3 →
              ShortResult s s' b [CmdSlot.getPwr, CmdSlot.setPwr])) ∧
          ((pktPayload d).getD 0 0 ≠ 0x02 → (pktPayload d).getD 0 0 ≠ 0x03 →
            (pktPayload d).getD 0 0 ≠ 0x06 → (pktPayload d).getD 0 0 ≠ 0x0a →
            s' = s ∧ b = true)) ∧
        (pktCmd d = 0x1c →
          (2 ≤ (pktPayload d).length →
            ((pktPayload d).getD 0 0 = 0 →
              PriorityClears s s' b
                [CmdSlot.setPTT, CmdSlot.getTuneStatus, CmdSlot.getTransmitStatus]) ∧
            ((pktPayload d).getD 0 0 = 1 →
              PriorityClears s s' b
                [CmdSlot.setTune, CmdSlot.getTuneStatus, CmdSlot.getTransmitStatus]) ∧
            ((pktPayload d).getD 0 0 ≠ 0 → (pktPayload d).getD 0 0 ≠ 1 →
              PriorityClears s s' b [CmdSlot.getTuneStatus, CmdSlot.getTransmitStatus])) ∧
          ((pktPayload d).length < 2 →
            ShortResult s s' b
              [CmdSlot.getTuneStatus, CmdSlot.getTransmitStatus, CmdSlot.setPTT])) ∧
        (pktCmd d = 0x15 →
          ((pktPayload d).getD 0 0 = 0x02 →
            (3 ≤ (pktPayload d).length → PriorityClears s s' b [CmdSlot.getS]) ∧
            ((pktPayload d).length < 3 → ShortResult s s' b [CmdSlot.getS])) ∧
          ((pktPayload d).getD 0 0 = 0x12 →
            (3 ≤ (pktPayload d).length → PriorityClears s s' b [CmdSlot.getSWR]) ∧
            ((pktPayload d).length < 3 → ShortResult s s' b [CmdSlot.getSWR])) ∧
          ((pktPayload d).getD 0 0 = 0x15 →
            (3 ≤ (pktPayload d).length → PriorityClears s s' b [CmdSlot.getVd]) ∧
            ((pktPayload d).length < 3 → ShortResult s s' b [CmdSlot.getVd])) ∧
          ((pktPayload d).getD 0 0 ≠ 0x02 → (pktPayload d).getD 0 0 ≠ 0x12 →
            (pktPayload d).getD 0 0 ≠ 0x15 → s' = s ∧ b = true)) ∧
        (pktCmd d = 0x16 →
          ((pktPayload d).getD 0 0 = 0x02 →
            (2 ≤ (pktPayload d).length →
              PriorityClears s s' b [CmdSlot.getPreamp, CmdSlot.setPreamp]) ∧
            ((pktPayload d).length < 2 →
              ShortResult s s' b [CmdSlot.getPreamp, CmdSlot.setPreamp])) ∧
          ((pktPayload d).getD 0 0 = 0x12 →
            (2 ≤ (pktPayload d).length →
              PriorityClears s s' b [CmdSlot.getAGC, CmdSlot.setAGC]) ∧
            ((pktPayload d).length < 2 → ShortResult s s' b [CmdSlot.getAGC, CmdSlot.setAGC])) ∧
          ((pktPayload d).getD 0 0 = 0x40 →
            (2 ≤ (pktPayload d).length →
              PriorityClears s s' b [CmdSlot.getNREnabled, CmdSlot.setNREnabled]) ∧
            ((pktPayload d).length < 2 →
              ShortResult s s' b [CmdSlot.getNREnabled, CmdSlot.setNREnabled])) ∧
          ((pktPayload d).getD 0 0 ≠ 0x02 → (pktPayload d).getD 0 0 ≠ 0x12 →
            (pktPayload d).getD 0 0 ≠ 0x40 → s' = s ∧ b = true)) ∧
        (pktCmd d = 0x25 →
          (2 ≤ (pktPayload d).length →
            ((pktPayload d).getD 0 0 = 0x01 →
              PriorityClears s s' b [CmdSlot.getSubVFOFreq, CmdSlot.setSubVFOFreq]) ∧
            ((pktPayload d).getD 0 0 ≠ 0x01 →
              PriorityClears s s' b [CmdSlot.getMainVFOFreq, CmdSlot.setMainVFOFreq])) ∧
          ((pktPayload d).length < 2 →
            ShortResult s s' b
              [CmdSlot.getMainVFOFreq, CmdSlot.getSubVFOFreq, CmdSlot.setSubVFOFreq])) ∧
        (pktCmd d = 0x26 →
          (2 ≤ (pktPayload d).length →
            ((pktPayload d).getD 0 0 = 0x01 →
              PriorityClears s s' b [CmdSlot.getSubVFOMode, CmdSlot.setSubVFOMode]) ∧
            ((pktPayload d).getD 0 0 ≠ 0x01 →
              PriorityClears s s' b [CmdSlot.getMainVFOMode])) ∧
          ((pktPayload d).length < 2 →
            ShortResult s s' b
              [CmdSlot.getMainVFOMode, CmdSlot.getSubVFOMode, CmdSlot.setSubVFOMode])) ∧
        (pktCmd d ∉ knownCmds → s' = s ∧ b = true)) := by
  intro d s' b hd
  have hg := reachable_good hr
  have hok := decode_ok hg hd
  refine ⟨fun x hx hx' => ?_, fun hwf => ?_⟩
  · refine ⟨?_, hok.2.2 x hx hx'⟩
    cases hpf : s'.pending x with
    | false => rfl
    | true => exact absurd ((hok.1.1 x).mpr hpf) hx'
  · refine ⟨fun hc => ?_, fun hc => ?_, fun hc => ?_, fun hc => ?_, fun hc => ?_, fun hc => ?_,
      fun hc => ?_, fun hc => ?_, fun hc => ?_, fun hc => ?_, fun hc => ?_, fun hc => ?_,
      fun hc => ?_, fun hc => ?_⟩
    · rw [decode_eq_decodeFreq hwf hc] at hd
      exact decodeFreq_char hg hd
    · rw [decode_eq_decodeMode hwf hc] at hd
      exact decodeMode_char hg hd
    · rw [decode_eq_false02 hwf hc] at hd
      simp only [Option.some.injEq, Prod.mk.injEq] at hd
      exact ⟨hd.1.symm, hd.2.symm⟩
    · rw [decode_eq_decodeVFO hwf hc] at hd
      exact decodeVFO_char hg hd
    · rw [decode_eq_decodeSplit hwf hc] at hd
      exact decodeSplit_char hg hd
    · rw [decode_eq_decodeTuningStep hwf hc] at hd
      exact decodeTuningStep_char hg hd
    · rw [decode_eq_decodeDataModeAndOVF hwf hc] at hd
      exact decodeDataModeAndOVF_char hg hd
    · rw [decode_eq_decodePowerRFGainSQLNRPwr hwf hc] at hd
      exact decodePowerRFGainSQLNRPwr_char hg hd
    · rw [decode_eq_decodeTransmitStatus hwf hc] at hd
      exact decodeTransmitStatus_char hg hd
    · rw [decode_eq_decodeVdSWRS hwf hc] at hd
      exact decodeVdSWRS_char hg hd
    · rw [decode_eq_decodePreampAGCNREnabled hwf hc] at hd
      exact decodePreampAGCNREnabled_char hg hd
    · rw [decode_eq_decodeVFOFreq hwf hc] at hd
      exact decodeVFOFreq_char hg hd
    · rw [decode_eq_decodeVFOMode hwf hc] at hd
      exact decodeVFOMode_char hg hd
    · rw [decode_eq_true_unknown hwf hc] at hd
      simp only [Option.some.injEq, Prod.mk.injEq] at hd
      exact ⟨hd.1.symm, hd.2.symm⟩

theorem decode_forward_amended_witness :
    Reachable ((PublicOp.setSQL 0).run initialState) ∧
    WellFormedPkt [0xfe, 0xfe, 0xe0, 0xa4, 0x14, 0x03, 0x00, 0x00, 0xfd] ∧
    SkippedSlot (civStateAfter ((PublicOp.setSQL 0).run initialState)
        [0xfe, 0xfe, 0xe0, 0xa4, 0x14, 0x03, 0x00, 0x00, 0xfd]) false CmdSlot.setSQL :=
  ⟨Relation.ReflTransGen.single (Step.publicOp initialState (PublicOp.setSQL 0)),
    by unfold WellFormedPkt; decide,
    (((((decode_forward_amended
            (Relation.ReflTransGen.single (Step.publicOp initialState (PublicOp.setSQL 0)))
            [0xfe, 0xfe, 0xe0, 0xa4, 0x14, 0x03, 0x00, 0x00, 0xfd]
            (civStateAfter ((PublicOp.setSQL 0).run initialState)
              [0xfe, 0xfe, 0xe0, 0xa4, 0x14, 0x03, 0x00, 0x00, 0xfd])
            false rfl).2 (by unfold WellFormedPkt; decide)).2.2.2.2.2.2.2.1
          (by decide)).2.1 (by decide)).1 (by decide)).2.1 (by decide) (by decide)⟩

/-- C7 counterexample: a transmit-status packet reporting PTT on (sent
when the operator keys the radio itself) drives the mirrored PTT true
in one reachable step without arming the PTT-timeout timer, so "while
the mirrored PTT state is true that timer is armed" fails. -/
theorem ptt_timer_counterexample :
    Reachable (civStateAfter initialState [0xfe, 0xfe, 0xe0, 0xa4, 0x1c, 0x00, 0x01, 0xfd]) ∧
      (civStateAfter initialState
        [0xfe, 0xfe, 0xe0, 0xa4, 0x1c, 0x00, 0x01, 0xfd]).ptt = true ∧
      (civStateAfter initialState
        [0xfe, 0xfe, 0xe0, 0xa4, 0x1c, 0x00, 0x01, 0xfd]).pttTimerArmed = false :=
  ⟨Relation.ReflTransGen.single
      (Step.decodePkt initialState
        (civStateAfter initialState [0xfe, 0xfe, 0xe0, 0xa4, 0x1c, 0x00, 0x01, 0xfd])
        [0xfe, 0xfe, 0xe0, 0xa4, 0x1c, 0x00, 0x01, 0xfd] true rfl),
    rfl, rfl⟩

/-- C7 amended: `setPTT(on)` always arms the 10-minute timeout timer,
whose expiry is the `Step.pttTimerFire` transition performing
`setPTT(off)`; and in every step from a reachable state in which the
mirrored PTT goes from true to false, the timer is stopped (not armed
afterwards).  However the mirrored PTT can be true with no timer armed
when the transmission was keyed on the radio itself. -/
theorem ptt_timer_amended {s : CivState} (hr : Reachable s) :
    (s.setPTT true).pttTimerArmed = true ∧
      (s.pttTimerArmed = true →
        Step s (({ s with pttTimerArmed := false }).setPTT false)) ∧
      (∀ s' : CivState, Step s s' → s.ptt = true → s'.ptt = false →
        s'.pttTimerArmed = false) := by
  refine ⟨?_, fun hf => Step.pttTimerFire s hf, fun s' hs => step_ptt_timer (reachable_good hr) hs⟩
  unfold CivState.setPTT
  dsimp only
  rw [initSend_pttTimerArmed]
  simp

theorem ptt_timer_amended_witness :
    Reachable initialState ∧ (initialState.setPTT true).pttTimerArmed = true :=
  ⟨Relation.ReflTransGen.refl, (ptt_timer_amended Relation.ReflTransGen.refl).1⟩
